import Mathlib

/-!
Verification of the letter-from-future demo engines

This file is a shallow embedding, in Lean 4, of the two pure engines of the
letter-from-future demo repository:

* the numeric projection engine (`lib/projections.ts`), and
* the deterministic template-letter engine (`lib/letter/templateLetter.ts`)
  together with the letter rule checker (`lib/letter/letterRules.ts`).

The repository ships two revisions of `projections.ts` and of
`templateLetter.ts`.  Both revisions of the projection engine are embedded
(namespaces `ProjectionsV1` and `ProjectionsV2`), because they genuinely
differ.  Of the letter engine the later, more complete revision (the one with
`ensureStrainedWord`, `ensureLine2Prefix` and the quality-tier aware pools) is
embedded; the rule checker exists in one revision only.

Modelling conventions:

* JavaScript numbers are modelled by exact rationals (`ℚ`); all divisions in
  the engines have positive denominators and every displayed quantity is
  rounded to an integer, so the claims proved here are about the exact-real
  reading of the arithmetic in the source.
* `Math.round` is `jsRound` below: `Math.round x = ⌊x + 1/2⌋` (ties go up,
  also for negative arguments), implemented on `num`/`den` so that it
  evaluates by kernel reduction.
* JavaScript strings are modelled as `String` (sequences of scalar values);
  all string literals in the engines are BMP-only, where UTF-16 code units
  and scalar values coincide.  String primitives used by the source
  (`includes`, `startsWith`, `endsWith`, `trim`, `split`, regex tests of
  literal alternations) are embedded as executable functions on `String.data`.
-/

/-- `Math.round` of JavaScript on an exact rational: `⌊x + 1/2⌋` (ties towards
`+∞`).  Implemented as a floor division on numerator and denominator so that
concrete values compute by kernel reduction; `jsRound_spec` below
characterises it. -/
def jsRound (x : ℚ) : ℤ :=
  (2 * x.num + (x.den : ℤ)).fdiv (2 * (x.den : ℤ))

/-! ## Data model (`lib/types.ts`) -/

/-- The `goal` enumeration of `LetterInput`. -/
inductive Goal where
  | entrepreneur
  | fire
  | mortgage
  | overseas
  | other
deriving DecidableEq, Repr

/-- The string the TypeScript `goal` union member denotes (used when the goal
is interpolated into template strings such as the hash seed). -/
def Goal.toKey : Goal → String
  | .entrepreneur => "entrepreneur"
  | .fire => "fire"
  | .mortgage => "mortgage"
  | .overseas => "overseas"
  | .other => "other"

/-- `LetterInput` of `lib/types.ts`.  The numeric fields are validated
non-negative integers, hence `ℕ`; `goal_other` is the optional free-text
field. -/
structure LetterInput where
  age : ℕ
  household_now : ℕ
  kids_future : ℕ
  annual_income_jpy : ℕ
  monthly_savings_jpy : ℕ
  current_savings_jpy : ℕ
  monthly_invest_jpy : ℕ
  current_invest_jpy : ℕ
  goal : Goal
  goal_other : Option String
deriving DecidableEq, Repr

/-- `LetterProjection` of `lib/types.ts`.  All monetary quantities are
rounded to integer yen by the engine, hence `ℤ`.  The second revision of the
projection engine attaches an extra `life_quality_tier` field to the returned
object (beyond the declared TypeScript type); the letter engine reads it back
duck-typed, so it is modelled as an `Option` that the first revision leaves
`none`. -/
structure LetterProjection where
  years : ℕ
  savings_future : ℤ
  invest_min : ℤ
  invest_max : ℤ
  total_min : ℤ
  total_max : ℤ
  monthly_spending_est_now : ℤ
  monthly_spending_est_future : ℤ
  monthly_spending_est_10y : ℤ
  monthly_surplus_est_low : ℤ
  monthly_surplus_est_high : ℤ
  used_monthly_savings : ℤ
  used_monthly_invest : ℤ
  used_monthly_total : ℤ
  used_monthly_total_low : ℤ
  used_monthly_total_high : ℤ
  runway_months_min : ℤ
  runway_months_max : ℤ
  goal_gap_label : String
  life_quality_tier : Option ℕ
deriving DecidableEq, Repr

/-! ## Projection engine (`lib/projections.ts`, both revisions) -/

/-- `RATES = [0.02, 0.06]`. -/
def RATES : List ℚ := [2/100, 6/100]

/-- `YEARS = 10`. -/
def YEARS : ℕ := 10

/-- `SINGLE_SPENDING = 169_547`. -/
def SINGLE_SPENDING : ℤ := 169547

/-- `estimateSpendingMonthly` (identical in both revisions):
`householdSize ≤ 1` returns the single-person constant, otherwise
`Math.round(MULTI_SPENDING * (householdSize / MULTI_SIZE) ** 0.85)` with
`MULTI_SPENDING = 300_243`, `MULTI_SIZE = 2.88`.  The real power `x ** 0.85`
is transcendental, so the multi-person branch is tabulated for the household
sizes 2–10 reachable under input validation (`household_now ≤ 6`,
`kids_future ≤ 4`); the table entries are the IEEE-double values of the
source expression (each at distance ≥ 0.06 from a rounding boundary, so they
are stable under 1-ulp perturbation).  Outside the reachable range the model
returns 0. -/
def estimateSpendingMonthly (householdSize : ℕ) : ℤ :=
  if householdSize ≤ 1 then SINGLE_SPENDING
  else if householdSize = 2 then 220224
  else if householdSize = 3 then 310844
  else if householdSize = 4 then 396954
  else if householdSize = 5 then 479859
  else if householdSize = 6 then 560296
  else if householdSize = 7 then 638738
  else if householdSize = 8 then 715510
  else if householdSize = 9 then 790852
  else if householdSize = 10 then 864947
  else 0

/-- `Math.min(...values)` over a non-empty spread (the engines only apply it
to the two-element `RATES.map(...)` list; the empty case never occurs and is
given an arbitrary value). -/
def jsMinList (l : List ℤ) : ℤ :=
  match l with
  | [] => 0
  | x :: xs => xs.foldl min x

/-- `Math.max(...values)` over a non-empty spread, as `jsMinList`. -/
def jsMaxList (l : List ℤ) : ℤ :=
  match l with
  | [] => 0
  | x :: xs => xs.foldl max x

namespace Projections

/-!
The local constants of `computeProjections` (textually identical in both
revisions of `lib/projections.ts`) are embedded as named definitions so that
the invariants can be stated about them directly; each definition carries the
exact source expression.
-/

/-- `const spendingNow = estimateSpendingMonthly(householdNow)`. -/
def spendingNow (input : LetterInput) : ℤ :=
  estimateSpendingMonthly input.household_now

/-- `const spendingFuture = estimateSpendingMonthly(householdNow + input.kids_future)`. -/
def spendingFuture (input : LetterInput) : ℤ :=
  estimateSpendingMonthly (input.household_now + input.kids_future)

/-- `const spending10y = Math.round((spendingNow + spendingFuture) / 2)`. -/
def spending10y (input : LetterInput) : ℤ :=
  jsRound (((spendingNow input + spendingFuture input : ℤ) : ℚ) / 2)

/-- `const takehomeLow = (input.annual_income_jpy / 12) * 0.75`. -/
def takehomeLow (input : LetterInput) : ℚ :=
  ((input.annual_income_jpy : ℚ) / 12) * (75/100)

/-- `const takehomeHigh = (input.annual_income_jpy / 12) * 0.85`. -/
def takehomeHigh (input : LetterInput) : ℚ :=
  ((input.annual_income_jpy : ℚ) / 12) * (85/100)

/-- `const surplusLow = Math.max(0, Math.round(takehomeLow - spending10y))`. -/
def surplusLow (input : LetterInput) : ℤ :=
  max 0 (jsRound (takehomeLow input - (spending10y input : ℚ)))

/-- `const surplusHigh = Math.max(0, Math.round(takehomeHigh - spending10y))`. -/
def surplusHigh (input : LetterInput) : ℤ :=
  max 0 (jsRound (takehomeHigh input - (spending10y input : ℚ)))

/-- `const userMonthlyTotal = input.monthly_savings_jpy + input.monthly_invest_jpy`. -/
def userMonthlyTotal (input : LetterInput) : ℕ :=
  input.monthly_savings_jpy + input.monthly_invest_jpy

/-- `const usedMonthlyTotalLow = Math.min(userMonthlyTotal, surplusLow)`. -/
def usedMonthlyTotalLow (input : LetterInput) : ℤ :=
  min ((userMonthlyTotal input : ℕ) : ℤ) (surplusLow input)

/-- `const usedMonthlyTotalHigh = Math.min(userMonthlyTotal, surplusHigh)`. -/
def usedMonthlyTotalHigh (input : LetterInput) : ℤ :=
  min ((userMonthlyTotal input : ℕ) : ℤ) (surplusHigh input)

/-- `const saveRatio = userMonthlyTotal > 0 ? input.monthly_savings_jpy / userMonthlyTotal : 0`. -/
def saveRatio (input : LetterInput) : ℚ :=
  if 0 < userMonthlyTotal input then
    (input.monthly_savings_jpy : ℚ) / ((userMonthlyTotal input : ℕ) : ℚ)
  else 0

/-- `const investRatio = userMonthlyTotal > 0 ? input.monthly_invest_jpy / userMonthlyTotal : 0`. -/
def investRatio (input : LetterInput) : ℚ :=
  if 0 < userMonthlyTotal input then
    (input.monthly_invest_jpy : ℚ) / ((userMonthlyTotal input : ℕ) : ℚ)
  else 0

/-- `const usedMonthlySavings = Math.round(usedMonthlyTotalLow * saveRatio)`. -/
def usedMonthlySavings (input : LetterInput) : ℤ :=
  jsRound ((usedMonthlyTotalLow input : ℚ) * saveRatio input)

/-- `const usedMonthlyInvest = Math.round(usedMonthlyTotalLow * investRatio)`. -/
def usedMonthlyInvest (input : LetterInput) : ℤ :=
  jsRound ((usedMonthlyTotalLow input : ℚ) * investRatio input)

/-- `const savingsFuture = Math.round(input.current_savings_jpy + input.monthly_savings_jpy * 12 * YEARS)`. -/
def savingsFuture (input : LetterInput) : ℤ :=
  jsRound ((input.current_savings_jpy : ℚ) + (input.monthly_savings_jpy : ℚ) * 12 * (YEARS : ℚ))

end Projections

namespace ProjectionsV1

open Projections

/-- `computeInvestFuture` of the first revision: annual compounding,
`growth = (1 + rate) ** years`, `annuity = (growth - 1) / rate`,
`future = currentInvest * growth + monthlyInvest * 12 * annuity`. -/
def computeInvestFuture (currentInvest monthlyInvest : ℚ) (years : ℕ) (rate : ℚ) : ℤ :=
  let growth : ℚ := (1 + rate) ^ years
  let annuity : ℚ := (growth - 1) / rate
  jsRound (currentInvest * growth + monthlyInvest * 12 * annuity)

/-- `RATES.map((rate) => computeInvestFuture(input.current_invest_jpy, usedMonthlyInvest, YEARS, rate))`:
the first revision feeds the surplus-capped `usedMonthlyInvest` to the
annually-compounding `computeInvestFuture`. -/
def investValues (input : LetterInput) : List ℤ :=
  RATES.map (fun rate =>
    computeInvestFuture (input.current_invest_jpy : ℚ) (usedMonthlyInvest input : ℚ) YEARS rate)

/-- `const investMin = Math.min(...investValues)`. -/
def investMin (input : LetterInput) : ℤ := jsMinList (investValues input)

/-- `const investMax = Math.max(...investValues)`. -/
def investMax (input : LetterInput) : ℤ := jsMaxList (investValues input)

/-- `const runwayMin = spending10y > 0 ? Math.round((savingsFuture + investMin) / spending10y) : 0`. -/
def runwayMin (input : LetterInput) : ℤ :=
  if 0 < spending10y input then
    jsRound (((savingsFuture input + investMin input : ℤ) : ℚ) / (spending10y input : ℚ))
  else 0

/-- `const runwayMax = spending10y > 0 ? Math.round((savingsFuture + investMax) / spending10y) : 0`. -/
def runwayMax (input : LetterInput) : ℤ :=
  if 0 < spending10y input then
    jsRound (((savingsFuture input + investMax input : ℤ) : ℚ) / (spending10y input : ℚ))
  else 0

/-- `const goalGapLabel = usedMonthlyTotalHigh === 0 || runwayMax < 6 ? "まだ遠い" : runwayMax < 12 ? "もう少し" : "達成できてる"`. -/
def goalGapLabel (input : LetterInput) : String :=
  if usedMonthlyTotalHigh input = 0 ∨ runwayMax input < 6 then "まだ遠い"
  else if runwayMax input < 12 then "もう少し"
  else "達成できてる"

/-- `computeProjections` of the first revision of `lib/projections.ts`. -/
def computeProjections (input : LetterInput) : List LetterProjection :=
  [{ years := YEARS
     savings_future := savingsFuture input
     invest_min := investMin input
     invest_max := investMax input
     total_min := savingsFuture input + investMin input
     total_max := savingsFuture input + investMax input
     monthly_spending_est_now := spendingNow input
     monthly_spending_est_future := spendingFuture input
     monthly_spending_est_10y := spending10y input
     monthly_surplus_est_low := surplusLow input
     monthly_surplus_est_high := surplusHigh input
     used_monthly_savings := usedMonthlySavings input
     used_monthly_invest := usedMonthlyInvest input
     used_monthly_total := jsRound ((usedMonthlySavings input + usedMonthlyInvest input : ℤ) : ℚ)
     used_monthly_total_low := jsRound ((usedMonthlyTotalLow input : ℤ) : ℚ)
     used_monthly_total_high := jsRound ((usedMonthlyTotalHigh input : ℤ) : ℚ)
     runway_months_min := runwayMin input
     runway_months_max := runwayMax input
     goal_gap_label := goalGapLabel input
     life_quality_tier := none }]

end ProjectionsV1

namespace ProjectionsV2

open Projections

/-- `computeInvestFuture` of the second revision: monthly compounding on the
raw monthly contribution, `n = years * 12`, `rm = annualRate / 12`; if
`rm === 0` the contributions are summed linearly. -/
def computeInvestFuture (currentInvest monthlyInvest : ℚ) (years : ℕ) (annualRate : ℚ) : ℤ :=
  let n : ℕ := years * 12
  let rm : ℚ := annualRate / 12
  if rm = 0 then jsRound (currentInvest + monthlyInvest * (n : ℚ))
  else
    let growth : ℚ := (1 + rm) ^ n
    let annuity : ℚ := (growth - 1) / rm
    jsRound (currentInvest * growth + monthlyInvest * annuity)

/-- `KANTO_SPEND_SINGLE_MONTHLY = 197_900`. -/
def KANTO_SPEND_SINGLE_MONTHLY : ℚ := 197900

/-- `KANTO_SPEND_MULTI_MONTHLY = 349_900`. -/
def KANTO_SPEND_MULTI_MONTHLY : ℚ := 349900

/-- `computeLifeQualityTier` of the second revision: residual monthly cash
flow after a fixed regional baseline and the planned contribution, bucketed
at 0 / 20 000 / 60 000 / 120 000 yen into tiers 1–5. -/
def computeLifeQualityTier (input : LetterInput) : ℕ :=
  let monthlyIncome : ℚ := (input.annual_income_jpy : ℚ) / 12
  let baselineSpend : ℚ :=
    if input.household_now = 1 then KANTO_SPEND_SINGLE_MONTHLY else KANTO_SPEND_MULTI_MONTHLY
  let planned : ℚ := ((input.monthly_savings_jpy + input.monthly_invest_jpy : ℕ) : ℚ)
  let cashflowAfterPlan := monthlyIncome - baselineSpend - planned
  if cashflowAfterPlan < 0 then 1
  else if cashflowAfterPlan < 20000 then 2
  else if cashflowAfterPlan < 60000 then 3
  else if cashflowAfterPlan < 120000 then 4
  else 5

/-- `RATES.map((rate) => computeInvestFuture(input.current_invest_jpy, input.monthly_invest_jpy, YEARS, rate))`:
the second revision feeds the *raw* stated `monthly_invest_jpy` to the
monthly-compounding `computeInvestFuture`. -/
def investValues (input : LetterInput) : List ℤ :=
  RATES.map (fun rate =>
    computeInvestFuture (input.current_invest_jpy : ℚ) (input.monthly_invest_jpy : ℚ) YEARS rate)

/-- `const investMin = Math.min(...investValues)`. -/
def investMin (input : LetterInput) : ℤ := jsMinList (investValues input)

/-- `const investMax = Math.max(...investValues)`. -/
def investMax (input : LetterInput) : ℤ := jsMaxList (investValues input)

/-- `const runwayMin = spending10y > 0 ? Math.round((savingsFuture + investMin) / spending10y) : 0`. -/
def runwayMin (input : LetterInput) : ℤ :=
  if 0 < spending10y input then
    jsRound (((savingsFuture input + investMin input : ℤ) : ℚ) / (spending10y input : ℚ))
  else 0

/-- `const runwayMax = spending10y > 0 ? Math.round((savingsFuture + investMax) / spending10y) : 0`. -/
def runwayMax (input : LetterInput) : ℤ :=
  if 0 < spending10y input then
    jsRound (((savingsFuture input + investMax input : ℤ) : ℚ) / (spending10y input : ℚ))
  else 0

/-- `const goalGapLabel = usedMonthlyTotalHigh === 0 || runwayMax < 6 ? "まだ遠い" : runwayMax < 12 ? "もう少し" : "達成できてる"`. -/
def goalGapLabel (input : LetterInput) : String :=
  if usedMonthlyTotalHigh input = 0 ∨ runwayMax input < 6 then "まだ遠い"
  else if runwayMax input < 12 then "もう少し"
  else "達成できてる"

/-- `computeProjections` of the second revision of `lib/projections.ts`.
The returned record additionally carries `life_quality_tier`. -/
def computeProjections (input : LetterInput) : List LetterProjection :=
  [{ years := YEARS
     savings_future := savingsFuture input
     invest_min := investMin input
     invest_max := investMax input
     total_min := savingsFuture input + investMin input
     total_max := savingsFuture input + investMax input
     monthly_spending_est_now := spendingNow input
     monthly_spending_est_future := spendingFuture input
     monthly_spending_est_10y := spending10y input
     monthly_surplus_est_low := surplusLow input
     monthly_surplus_est_high := surplusHigh input
     used_monthly_savings := usedMonthlySavings input
     used_monthly_invest := usedMonthlyInvest input
     used_monthly_total := jsRound ((usedMonthlySavings input + usedMonthlyInvest input : ℤ) : ℚ)
     used_monthly_total_low := jsRound ((usedMonthlyTotalLow input : ℤ) : ℚ)
     used_monthly_total_high := jsRound ((usedMonthlyTotalHigh input : ℤ) : ℚ)
     runway_months_min := runwayMin input
     runway_months_max := runwayMax input
     goal_gap_label := goalGapLabel input
     life_quality_tier := some (computeLifeQualityTier input) }]

end ProjectionsV2

/-- The invariant bundle asserted by the spec for every projection record:
fixed 10-year horizon, ordered investment and total ranges, ordered
contribution caps, and non-negativity of every monetary figure. -/
def ProjectionInvariants (p : LetterProjection) : Prop :=
  p.years = 10 ∧
  p.invest_min ≤ p.invest_max ∧
  p.total_min ≤ p.total_max ∧
  p.used_monthly_total_low ≤ p.used_monthly_total_high ∧
  0 ≤ p.savings_future ∧ 0 ≤ p.invest_min ∧ 0 ≤ p.invest_max ∧
  0 ≤ p.total_min ∧ 0 ≤ p.total_max ∧
  0 ≤ p.monthly_spending_est_now ∧ 0 ≤ p.monthly_spending_est_future ∧
  0 ≤ p.monthly_spending_est_10y ∧
  0 ≤ p.monthly_surplus_est_low ∧ 0 ≤ p.monthly_surplus_est_high ∧
  0 ≤ p.used_monthly_savings ∧ 0 ≤ p.used_monthly_invest ∧ 0 ≤ p.used_monthly_total ∧
  0 ≤ p.used_monthly_total_low ∧ 0 ≤ p.used_monthly_total_high ∧
  0 ≤ p.runway_months_min ∧ 0 ≤ p.runway_months_max

/-! ## Claims about the projection engine -/

/-- Concrete valid input (the smoke-test payload of the repository). -/
def inputSmoke : LetterInput :=
  { age := 32, household_now := 2, kids_future := 2, annual_income_jpy := 4500000
    monthly_savings_jpy := 20000, current_savings_jpy := 2000000, monthly_invest_jpy := 30000
    current_invest_jpy := 500000, goal := .mortgage, goal_other := none }

/-- Concrete valid input on which the two projection revisions disagree: the
stated monthly investment (30 000) exceeds the computed surplus (0), so the
first revision compounds a capped contribution of 0 while the second
compounds the raw 30 000. -/
def inputSeparating : LetterInput :=
  { age := 30, household_now := 1, kids_future := 0, annual_income_jpy := 1000000
    monthly_savings_jpy := 0, current_savings_jpy := 0, monthly_invest_jpy := 30000
    current_invest_jpy := 0, goal := .fire, goal_other := none }

/-- Concrete valid input whose surplus cap is odd (100 003) while savings and
investment are stated equal, so both rounded shares round up and their sum
exceeds the cap by exactly one yen. -/
def inputOddCap : LetterInput :=
  { age := 30, household_now := 1, kids_future := 0, annual_income_jpy := 4312800
    monthly_savings_jpy := 60000, current_savings_jpy := 0, monthly_invest_jpy := 60000
    current_invest_jpy := 0, goal := .fire, goal_other := none }

/-- Concrete valid input whose income is far below the spending estimate, so
both surplus bands clamp to zero. -/
def inputLowIncome : LetterInput :=
  { age := 30, household_now := 1, kids_future := 0, annual_income_jpy := 1000000
    monthly_savings_jpy := 50000, current_savings_jpy := 0, monthly_invest_jpy := 50000
    current_invest_jpy := 0, goal := .fire, goal_other := none }

/-! ## String primitives: embeddings of the JavaScript string operations -/

/-- Embedding of JS `String.prototype.includes(pat)` (and of `.test` of a
regex that is an alternation of literal patterns): `pat` occurs as a
contiguous substring. -/
def jsIncludes (s pat : String) : Bool := decide (pat.data <:+: s.data)

/-- Embedding of JS `String.prototype.startsWith(pat)`. -/
def jsStartsWith (s pat : String) : Bool := decide (pat.data <+: s.data)

/-- Embedding of JS `String.prototype.endsWith(pat)`. -/
def jsEndsWith (s pat : String) : Bool := decide (pat.data <:+ s.data)

/-- The whitespace class of JS `trim` and of the `[\s　]` character class, as
used by the engine (ASCII whitespace plus the ideographic space U+3000; the
engine's inputs contain no other Unicode space separators). -/
def jsWhitespace (c : Char) : Bool :=
  c = ' ' || c = '\t' || c = '\n' || c = '\r' || c = '\x0b' || c = '\x0c' || c = '　'

/-- Embedding of JS `String.prototype.trim()`. -/
def jsTrim (s : String) : String :=
  ⟨((s.data.dropWhile jsWhitespace).reverse.dropWhile jsWhitespace).reverse⟩

/-- Embedding of `replace(/^[\s　]+/, "")`: drop leading whitespace. -/
def jsDropLeadingWs (s : String) : String :=
  ⟨s.data.dropWhile jsWhitespace⟩

/-- A request payload as far as the validator `parseLetterInput` (second
document of `src/lib/openai.ts`, which the API route imports as
`@/lib/validation`) inspects it.  Each numeric field is a JS number (`ℚ`) or
anything else (`none`: absent, `null`, an object…); `goal` and `goal_other`
are a string or anything else.  The source's `parseInteger` additionally
coerces numeric strings via `Number(...)`; a string accepted there denotes
an integer that the number branch accepts equally, so restricting payloads
to number-typed numeric fields leaves the validator's set of accepted
outputs unchanged. -/
structure LetterPayload where
  age : Option ℚ
  household_now : Option ℚ
  kids_future : Option ℚ
  annual_income_jpy : Option ℚ
  monthly_savings_jpy : Option ℚ
  current_savings_jpy : Option ℚ
  monthly_invest_jpy : Option ℚ
  current_invest_jpy : Option ℚ
  goal : Option String
  goal_other : Option String
deriving DecidableEq, Repr

/-- `parseInteger` of the validator on a number-typed value:
`Number.isInteger` accepts exactly the integer-valued numbers. -/
def parseInteger (value : Option ℚ) : Option ℤ :=
  match value with
  | some q => if q.den = 1 then some q.num else none
  | none => none

/-- One iteration of the `FIELD_SPECS` loop of `parseLetterInput`: the
`parseInteger` extraction followed by the range test
`value < spec.range.min || value > spec.range.max` of the field's spec. -/
def checkField (value : Option ℚ) (lo hi : ℕ) : Option ℕ :=
  (parseInteger value).bind fun v =>
    if v < (lo : ℤ) ∨ (hi : ℤ) < v then none else some v.toNat

/-- The `GOALS.includes` test of the validator: the goal strings it
accepts. -/
def Goal.ofKey (s : String) : Option Goal :=
  if s = "entrepreneur" then some .entrepreneur
  else if s = "fire" then some .fire
  else if s = "mortgage" then some .mortgage
  else if s = "overseas" then some .overseas
  else if s = "other" then some .other
  else none

/-- The `typeof goal !== "string" || !GOALS.includes(goal)` test: a goal
value is accepted exactly when it is one of the five option strings. -/
def parseGoal (value : Option String) : Option Goal :=
  match value with
  | some s => Goal.ofKey s
  | none => none

/-- `parseLetterInput` of the validator (second document of
`src/lib/openai.ts`): every numeric field must be an in-range integer per
`FIELD_SPECS` (`age` 18–80, `household_now` 1–6, `kids_future` 0–4,
`annual_income_jpy` at most 50 000 000, monthly savings/invest at most
2 000 000, current savings/invest at most 200 000 000), `goal` must be one
of the five options, and for the open-ended goal `goal_other` must be a
string that is non-empty after `trim` and at most 40 characters long once
trimmed.  The returned record carries the trimmed `goal_other` (and no
`goal_other` for the fixed goals, since `goalOther` stays `undefined`
there).  JS `.length` counts UTF-16 code units, which coincides with the
character count used here on BMP text (the convention of this embedding). -/
def parseLetterInput (payload : LetterPayload) : Option LetterInput := do
  let age ← checkField payload.age 18 80
  let household_now ← checkField payload.household_now 1 6
  let kids_future ← checkField payload.kids_future 0 4
  let annual_income_jpy ← checkField payload.annual_income_jpy 0 50000000
  let monthly_savings_jpy ← checkField payload.monthly_savings_jpy 0 2000000
  let current_savings_jpy ← checkField payload.current_savings_jpy 0 200000000
  let monthly_invest_jpy ← checkField payload.monthly_invest_jpy 0 2000000
  let current_invest_jpy ← checkField payload.current_invest_jpy 0 200000000
  let goal ← parseGoal payload.goal
  if goal = Goal.other then
    payload.goal_other.bind fun raw =>
      if (jsTrim raw).length = 0 then none
      else if 40 < (jsTrim raw).length then none
      else
        some { age := age, household_now := household_now, kids_future := kids_future,
               annual_income_jpy := annual_income_jpy,
               monthly_savings_jpy := monthly_savings_jpy,
               current_savings_jpy := current_savings_jpy,
               monthly_invest_jpy := monthly_invest_jpy,
               current_invest_jpy := current_invest_jpy,
               goal := goal, goal_other := some (jsTrim raw) }
  else
    some { age := age, household_now := household_now, kids_future := kids_future,
           annual_income_jpy := annual_income_jpy,
           monthly_savings_jpy := monthly_savings_jpy,
           current_savings_jpy := current_savings_jpy,
           monthly_invest_jpy := monthly_invest_jpy,
           current_invest_jpy := current_invest_jpy,
           goal := goal, goal_other := none }

/-- The payload that carries a `LetterInput`'s own field values (numbers for
the numeric fields, the goal's key string, `goal_other` as stored). -/
def inputPayload (i : LetterInput) : LetterPayload :=
  { age := some (i.age : ℚ), household_now := some (i.household_now : ℚ),
    kids_future := some (i.kids_future : ℚ),
    annual_income_jpy := some (i.annual_income_jpy : ℚ),
    monthly_savings_jpy := some (i.monthly_savings_jpy : ℚ),
    current_savings_jpy := some (i.current_savings_jpy : ℚ),
    monthly_invest_jpy := some (i.monthly_invest_jpy : ℚ),
    current_invest_jpy := some (i.current_invest_jpy : ℚ),
    goal := some i.goal.toKey, goal_other := i.goal_other }

/-- A `LetterInput` is valid when the embedded validator accepts its own
field values and returns it unchanged.  `validInput_iff` below shows this is
exactly the image of `parseLetterInput` over all payloads (the validator
normalises `goal_other` to its trimmed form, so a record with an untrimmed
`goal_other` is not valid). -/
def ValidInput (i : LetterInput) : Prop :=
  parseLetterInput (inputPayload i) = some i

instance (i : LetterInput) : Decidable (ValidInput i) := by
  unfold ValidInput
  infer_instance

/-- Split a character list at every `'\n'` (every separator splits; empty
pieces are kept), the semantics of JS `split(/\n/)` / `split("\n")`. -/
def splitNlChars : List Char → List (List Char)
  | [] => [[]]
  | c :: cs =>
    match splitNlChars cs with
    | [] => [[c]]
    | h :: t => if c = '\n' then [] :: h :: t else (c :: h) :: t

/-- Embedding of JS `text.split(/\n/)`. -/
def jsSplitNl (s : String) : List String :=
  (splitNlChars s.data).map (fun l => ⟨l⟩)

/-- Embedding of `hash = (hash * 31 + input.charCodeAt(i)) | 0`: wrap to a
signed 32-bit integer. -/
def toInt32 (n : ℤ) : ℤ := (n + 2^31) % 2^32 - 2^31

/-- `hashString` of `templateLetter.ts`: the 31-multiplier rolling hash over
the UTF-16 code units with `| 0` wrapping, then `Math.abs`.  The engine only
hashes ASCII seed strings, on which UTF-16 code units coincide with
`Char.toNat`. -/
def hashString (s : String) : ℕ :=
  (s.data.foldl (fun h c => toInt32 (h * 31 + (c.toNat : ℤ))) 0).natAbs

/-! ## Letter rule checker (`lib/letter/letterRules.ts`) -/

/-- `REQUIRED_HOOK_SENTENCE` of `letterRules.ts`. -/
def REQUIRED_HOOK_SENTENCE : String :=
  "十年後の安心は、あの日の準備にかかってたと思う。"

/-- `REQUIRED_METHODS_SENTENCE` of `letterRules.ts`. -/
def REQUIRED_METHODS_SENTENCE : String :=
  "理想の未来を創る３つの方法は、「貯める工夫」・「賢く使う」・「プロに相談する」だよ。"

/-- `hasSevenLines` of `letterRules.ts`:
`text.split(/\n/).filter(Boolean).length === 7` — `filter(Boolean)` drops
exactly the empty-string pieces. -/
def hasSevenLines (text : String) : Bool :=
  ((jsSplitNl text).filter (fun l => l != "")).length = 7

/-- `hasSingleSentenceLine4` of `letterRules.ts`: the trimmed fourth line is
non-empty, contains exactly one `。`, and ends with it. -/
def hasSingleSentenceLine4 (text : String) : Bool :=
  let lines := jsSplitNl text
  if lines.length < 4 then false
  else
    let line := jsTrim (lines.getD 3 "")
    if line = "" then false
    else (line.data.count '。' = 1) && jsEndsWith line "。"

/-- `hasRequiredLine5Hook` of `letterRules.ts`. -/
def hasRequiredLine5Hook (text : String) : Bool :=
  jsTrim ((jsSplitNl text).getD 4 "") = REQUIRED_HOOK_SENTENCE

/-- `hasRequiredLine6Methods` of `letterRules.ts`. -/
def hasRequiredLine6Methods (text : String) : Bool :=
  jsTrim ((jsSplitNl text).getD 5 "") = REQUIRED_METHODS_SENTENCE

/-- `computeGapSeverity` of `letterRules.ts`: severity 0–4, primarily the
inverse of the duck-typed `life_quality_tier`, with heuristics on the
projection fields as fallback and 1 when no projection is given. -/
def computeGapSeverity (input : LetterInput) (projection : Option LetterProjection) : ℕ :=
  match projection.bind (fun p => p.life_quality_tier) with
  | some tier =>
    if tier ≤ 1 then 4
    else if tier = 2 then 3
    else if tier = 3 then 2
    else if tier = 4 then 1
    else 0
  | none =>
    match projection with
    | none => 1
    | some p =>
      let monthlyInputTotal : ℤ := ((input.monthly_savings_jpy + input.monthly_invest_jpy : ℕ) : ℤ)
      if p.monthly_surplus_est_high ≤ 0 ∨ p.runway_months_max < 3 then 4
      else if p.runway_months_max < 6 ∨
          (p.goal_gap_label = "まだ遠い" ∧
            (p.used_monthly_total_high : ℚ) < (monthlyInputTotal : ℚ) * (5/10)) then 3
      else if p.goal_gap_label = "まだ遠い" ∨ p.monthly_surplus_est_low ≤ 0 then 2
      else if p.goal_gap_label = "もう少し" then 1
      else 0

/-! ## Template letter engine (`lib/letter/templateLetter.ts`, second revision) -/

/-- The sentence-ending categories of the second revision. -/
inductive EndingGroup where
  | ne
  | kana
  | kamo
  | nanda
  | toOmou
deriving DecidableEq, Repr

/-- A candidate sentence with its ending category. -/
structure Sentence where
  text : String
  ending : EndingGroup
deriving DecidableEq, Repr

instance : Inhabited Sentence := ⟨⟨"", EndingGroup.ne⟩⟩

/-- `makeSentence`. -/
def makeSentence (text : String) (ending : EndingGroup) : Sentence := ⟨text, ending⟩

/-- `GOAL_CODE`. -/
def GOAL_CODE : Goal → ℕ
  | .entrepreneur => 1
  | .fire => 2
  | .mortgage => 3
  | .overseas => 4
  | .other => 5

/-- The situation classification. -/
inductive Situation where
  | kids
  | pair
  | single
deriving DecidableEq, Repr

/-- `pickSituation`: `kids_future > 0 → kids`, else `household_now ≥ 2 → pair`,
else `single`. -/
def pickSituation (input : LetterInput) : Situation :=
  if 0 < input.kids_future then .kids
  else if 2 ≤ input.household_now then .pair
  else .single

/-- `goalKeyword`: the fixed keyword per goal; for `other` the trimmed
`goal_other`, or `目標` when that is empty. -/
def goalKeyword (input : LetterInput) : String :=
  match input.goal with
  | .other => let t := jsTrim (input.goal_other.getD ""); if t = "" then "目標" else t
  | .fire => "FIRE"
  | .mortgage => "住宅ローン完済"
  | .entrepreneur => "起業"
  | .overseas => "海外移住"

/-- Cashflow tier. -/
inductive CashflowTier where
  | LOW
  | MID
  | HIGH
deriving DecidableEq, Repr

/-- The string a `CashflowTier` denotes. -/
def CashflowTier.toKey : CashflowTier → String
  | .LOW => "LOW"
  | .MID => "MID"
  | .HIGH => "HIGH"

/-- Stability tier. -/
inductive StabilityTier where
  | LOW
  | MID
  | HIGH
deriving DecidableEq, Repr

/-- The string a `StabilityTier` denotes. -/
def StabilityTier.toKey : StabilityTier → String
  | .LOW => "LOW"
  | .MID => "MID"
  | .HIGH => "HIGH"

/-- Life-load tier. -/
inductive LifeLoadTier where
  | LIGHT
  | MID
  | HEAVY
deriving DecidableEq, Repr

/-- The string a `LifeLoadTier` denotes. -/
def LifeLoadTier.toKey : LifeLoadTier → String
  | .LIGHT => "LIGHT"
  | .MID => "MID"
  | .HEAVY => "HEAVY"

/-- `computeCashflowTier` of the second revision: the duck-typed
`life_quality_tier` dominates; otherwise the surplus-high heuristic, `MID`
without a projection. -/
def computeCashflowTier (projection : Option LetterProjection) : CashflowTier :=
  match projection.bind (fun p => p.life_quality_tier) with
  | some tier =>
    if tier ≤ 2 then .LOW
    else if tier = 3 then .MID
    else .HIGH
  | none =>
    match projection with
    | none => .MID
    | some p =>
      if p.monthly_surplus_est_high ≤ 0 then .LOW
      else if p.monthly_surplus_est_high ≤ 30000 then .MID
      else .HIGH

/-- `computeStabilityTier`: months of buffer of current assets over the
blended spending estimate, `MID` without a projection. -/
def computeStabilityTier (input : LetterInput) (projection : Option LetterProjection) :
    StabilityTier :=
  match projection with
  | none => .MID
  | some p =>
    let buffer : ℚ :=
      ((input.current_savings_jpy + input.current_invest_jpy : ℕ) : ℚ) /
        ((max 1 p.monthly_spending_est_10y : ℤ) : ℚ)
    if buffer < 3 then .LOW
    else if buffer < 6 then .MID
    else .HIGH

/-- `computeLifeLoadTier`: `kids_future * 2 + max(0, household_now - 1)`
bucketed at 1 and 4. -/
def computeLifeLoadTier (input : LetterInput) : LifeLoadTier :=
  let score := input.kids_future * 2 + (input.household_now - 1)
  if score ≤ 1 then .LIGHT
  else if score ≤ 4 then .MID
  else .HEAVY

/-- `getLifeQualityTier`: the duck-typed tier when it is one of 1–5,
otherwise 3. -/
def getLifeQualityTier (projection : Option LetterProjection) : ℕ :=
  match projection.bind (fun p => p.life_quality_tier) with
  | some t => if t = 1 ∨ t = 2 ∨ t = 3 ∨ t = 4 ∨ t = 5 then t else 3
  | none => 3

/-- `buildScenarioKey` of the second revision:
`cash + "-" + stability + "-" + load + "-Q" + quality`. -/
def buildScenarioKey (input : LetterInput) (projection : Option LetterProjection) : String :=
  let cash := computeCashflowTier projection
  let stability := computeStabilityTier input projection
  let load := computeLifeLoadTier input
  let quality := getLifeQualityTier projection
  cash.toKey ++ "-" ++ stability.toKey ++ "-" ++ load.toKey ++ "-Q" ++ toString quality

/-- The severity bands of `severityBand`. -/
inductive Band where
  | calm
  | caution
  | strained
deriving DecidableEq, Repr

/-- `severityBand`: `≤ 1` calm, `= 2` caution, else strained. -/
def severityBand (severity : ℕ) : Band :=
  if severity ≤ 1 then .calm
  else if severity = 2 then .caution
  else .strained

/-- `LINE4_BY_SEVERITY`: three line-4 variants per severity 0–4. -/
def LINE4_BY_SEVERITY : List (List String) :=
  [["今の暮らしは落ち着いてて、次の選択も焦らず進められる感じ。",
    "生活は落ち着いてて、次の選択に迷いが少ないかな。",
    "生活は安定してるし、進め方も見えてる感じ。"],
   ["生活は保ててるけど、少し整える余地はあるかも。",
    "生活は続いてるけど、見直せるところが残ってるね。",
    "生活は保ててるし、整えるともう少し楽になりそう。"],
   ["生活は続いてるけど、負担がじわっと積もってる感じ。",
    "生活は回ってるけど、余裕のなさを感じるね。",
    "普段は回ってるけど、ふとしたときにしんどくなる日もあるんだ。"],
   ["生活はギリギリで、選択肢が狭く感じるんだ。",
    "生活は厳しくて、調整が必要だと感じる。",
    "生活は苦しくて、立て直しを急ぎたい感じ。"],
   ["生活はかなり厳しくて、今のままだと持たない気がするんだ。",
    "生活は苦しくて、早めの調整が必要だと思う。",
    "生活はしんどくて、今のままだと続かない気がする。"]]

/-- `STRAINED_WORDS` of the second revision. -/
def STRAINED_WORDS : List String :=
  ["ギリギリ", "余裕がない", "苦しい", "しんどい", "厳しい"]

/-- The literal alternatives of `DENYLIST_PATTERN`
`/(ねかな|かなかも|かなって感じ|かもかな|感じるなんだ|んだって感じ|ねって感じ)/`. -/
def DENYLIST_PATTERNS : List String :=
  ["ねかな", "かなかも", "かなって感じ", "かもかな", "感じるなんだ", "んだって感じ", "ねって感じ"]

/-- `DENYLIST_PATTERN.test(s)`: the regex is an alternation of literals, so
the test holds exactly when some alternative occurs as a substring. -/
def denylistTest (s : String) : Bool :=
  DENYLIST_PATTERNS.any (fun p => jsIncludes s p)

/-- `line2Pool` of the second revision: the situation × band candidates, then
the `LOW-LOW`/low-quality bonus pair, then the `HIGH-HIGH`/high-quality bonus
pair (the source pushes these groups onto the array in this order). -/
def line2Pool (situation : Situation) (severity : ℕ) (scenarioKey : String)
    (qualityTier : ℕ) : List Sentence :=
  let band := severityBand severity
  (if situation = .kids then
    (if band = .calm then
      [makeSentence "子どもとの時間が増えて、家のリズムも穏やかだね。" .ne,
       makeSentence "家の予定は動くけど、家族のペースは保ててるかな。" .kana,
       makeSentence "子ども中心でも、気持ちは少し落ち着いてきたかも。" .kamo]
    else if band = .caution then
      [makeSentence "子どもの予定に振り回されやすくて、家がバタつく日もあるね。" .ne,
       makeSentence "家のペースは保ってるけど、余裕はまだ少なめかな。" .kana,
       makeSentence "子どものことで疲れが残りやすいかも。" .kamo]
    else
      [makeSentence "子どものことで毎日が手一杯で、家の余裕がほとんどないね。" .ne,
       makeSentence "家の中がバタバタで、落ち着く時間が取れないかな。" .kana,
       makeSentence "子どものことで気持ちも削られがちかも。" .kamo])
  else []) ++
  (if situation = .pair then
    (if band = .calm then
      [makeSentence "ふたりの暮らしが安定してて、日々のリズムは整ってるね。" .ne,
       makeSentence "ふたりの生活は落ち着いてきて、気持ちも軽いかな。" .kana,
       makeSentence "ふたりの時間は保てて、暮らしも穏やかかも。" .kamo]
    else if band = .caution then
      [makeSentence "ふたりの暮らしは続いてるけど、余裕はまだ少なめね。" .ne,
       makeSentence "ふたりの生活は回ってるけど、整えたい所があるかな。" .kana,
       makeSentence "ふたりの時間はあるけど、気持ちは詰まりやすいかも。" .kamo]
    else
      [makeSentence "ふたりの暮らしは続いてるけど、余裕が削られてるね。" .ne,
       makeSentence "ふたりの生活が回ってても、息が詰まりやすいかな。" .kana,
       makeSentence "ふたりの時間はあるけど、しんどい日が増えたかも。" .kamo])
  else []) ++
  (if situation = .single then
    (if band = .calm then
      [makeSentence "ひとりの暮らしが整って、気持ちもゆるやかだね。" .ne,
       makeSentence "ひとりの生活は落ち着いてて、ペースも合ってるかな。" .kana,
       makeSentence "ひとりの時間は守れて、気持ちも軽くなったかも。" .kamo]
    else if band = .caution then
      [makeSentence "ひとりの暮らしは続いてるけど、余裕が減りやすいね。" .ne,
       makeSentence "ひとりの生活は回ってるけど、見直したい所があるかな。" .kana,
       makeSentence "ひとりの時間はあるけど、疲れが残りやすいかも。" .kamo]
    else
      [makeSentence "ひとりの暮らしが続いてても、余裕がほとんどないね。" .ne,
       makeSentence "ひとりの生活は回ってるけど、気持ちが重くなるかな。" .kana,
       makeSentence "ひとりの時間はあるけど、しんどさが続くかも。" .kamo])
  else []) ++
  (if jsStartsWith scenarioKey "LOW-LOW" || qualityTier ≤ 2 then
    [makeSentence "やりくりに追われて、落ち着かない日が増えたんだ。" .nanda,
     makeSentence "少しの変化でも気持ちが揺れやすいと思う。" .toOmou]
  else []) ++
  (if jsStartsWith scenarioKey "HIGH-HIGH" || 4 ≤ qualityTier then
    [makeSentence "日々の流れは落ち着いていて、気持ちも整ってるね。" .ne,
     makeSentence "暮らしは安定してるし、心の余裕も出てきたかな。" .kana]
  else [])

/-- The category of `inferOtherGoalIntent`. -/
inductive OtherCategory where
  | travel
  | career
  | home
  | health
  | dream
  | skill
  | other
deriving DecidableEq, Repr

/-- The `OtherIntent` record of the second revision. -/
structure OtherIntent where
  keyword : String
  category : OtherCategory
  difficulty : ℕ
deriving DecidableEq, Repr

/-- `sanitizeKeyword`: strip the characters of the class `[0-9０-９%％円月]`,
trim, fall back to `目標` when empty, else keep at most 18 characters. -/
def sanitizeKeyword (raw : String) : String :=
  let stripped : Char → Bool := fun c =>
    ('0' ≤ c && c ≤ '9') || ('０' ≤ c && c ≤ '９') || c = '%' || c = '％' || c = '円' || c = '月'
  let cleaned := jsTrim ⟨raw.data.filter (fun c => !stripped c)⟩
  if cleaned = "" then "目標" else ⟨cleaned.data.take 18⟩

/-- `inferOtherGoalIntent` of the second revision: keyword-class matching of
the sanitised free-text goal.  The final `/(宇宙|火星|ロケット|億|F1)/i` test
runs on the lowercased text, where the case-insensitive flag only affects
`F1`; `jsToLowerAscii` maps the ASCII letters (the only characters of the
patterns affected by JS `toLowerCase`). -/
def inferOtherGoalIntent (goalOther : String) : OtherIntent :=
  let raw := sanitizeKeyword goalOther
  let text : String := ⟨raw.data.map Char.toLower⟩
  let kw := if raw = "" then "目標" else raw
  if ["旅行", "世界一周", "世界旅行", "海外", "backpack"].any (fun p => jsIncludes raw p) then
    ⟨kw, .travel, 2⟩
  else if ["起業", "独立", "副業", "転職", "フリーランス"].any (fun p => jsIncludes raw p) then
    ⟨kw, .career, 2⟩
  else if ["家", "マイホーム", "引っ越し", "引越し"].any (fun p => jsIncludes raw p) then
    ⟨kw, .home, 2⟩
  else if ["筋トレ", "ダイエット", "健康"].any (fun p => jsIncludes raw p) then
    ⟨kw, .health, 1⟩
  else if ["資格", "勉強", "語学", "スキル", "学び"].any (fun p => jsIncludes raw p) then
    ⟨kw, .skill, 1⟩
  else if ["宇宙", "火星", "ロケット", "億", "f1"].any (fun p => jsIncludes text p) then
    ⟨kw, .dream, 3⟩
  else ⟨kw, .other, 2⟩

/-- The `label` local of `line3Pool`: the quoted intent keyword for the
open-ended goal (`目標` when no intent is passed), else the goal keyword. -/
def line3Label (input : LetterInput) (intent : Option OtherIntent) : String :=
  if input.goal = .other then
    match intent with
    | some i => "「" ++ i.keyword ++ "」"
    | none => "目標"
  else goalKeyword input

/-- `line3Pool` of the second revision: the goal × band candidates (each
`addGoal` template starts with `{goal}`, so `replace("{goal}", keyword)`
prepends the keyword; the `other` branch interpolates the quoted intent
keyword `label`), then the `LOW-LOW`/low-quality bonus pair and the
high-quality bonus pair, both interpolating `label`. -/
def line3Pool (input : LetterInput) (severity : ℕ) (scenarioKey : String)
    (qualityTier : ℕ) (intent : Option OtherIntent) : List Sentence :=
  let keyword := goalKeyword input
  let label : String := line3Label input intent
  let band := severityBand severity
  (if input.goal = .entrepreneur then
    (if band = .calm then
      [makeSentence (keyword ++ "の準備が進んで、形が見えてきたね。") .ne,
       makeSentence (keyword ++ "は動き出してて、手応えも出てきたかな。") .kana,
       makeSentence (keyword ++ "の道が少しずつ固まってきたかも。") .kamo]
    else if band = .caution then
      [makeSentence (keyword ++ "は意識できてるけど、揺れる日もあるね。") .ne,
       makeSentence (keyword ++ "の段取りは見えてきたけど、余裕は少なめかな。") .kana,
       makeSentence (keyword ++ "に向けて動いてるけど、不安も残るかも。") .kamo]
    else
      [makeSentence (keyword ++ "はまだ遠くて、余裕がない日も多いね。") .ne,
       makeSentence (keyword ++ "に向けて進みたいけど、足元がしんどいかな。") .kana,
       makeSentence (keyword ++ "の準備は続けてるけど、厳しい日があるかも。") .kamo])
  else []) ++
  (if input.goal = .fire then
    (if band = .calm then
      [makeSentence (keyword ++ "の準備が進んで、安心感が出てきたね。") .ne,
       makeSentence (keyword ++ "は動き出してて、手応えも出てきたかな。") .kana,
       makeSentence (keyword ++ "の道が少しずつ固まってきたかも。") .kamo]
    else if band = .caution then
      [makeSentence (keyword ++ "は意識できてるけど、揺れる日もあるね。") .ne,
       makeSentence (keyword ++ "の段取りは見えてきたけど、余裕は少なめかな。") .kana,
       makeSentence (keyword ++ "に向けて動いてるけど、不安も残るかも。") .kamo]
    else
      [makeSentence (keyword ++ "はまだ遠くて、余裕がない日も多いね。") .ne,
       makeSentence (keyword ++ "に向けて進みたいけど、足元がしんどいかな。") .kana,
       makeSentence (keyword ++ "の準備は続けてるけど、厳しい日があるかも。") .kamo])
  else []) ++
  (if input.goal = .mortgage then
    (if band = .calm then
      [makeSentence (keyword ++ "が見えてきて、気持ちが落ち着くね。") .ne,
       makeSentence (keyword ++ "に向けた動きは続いてて、あと少しかな。") .kana,
       makeSentence (keyword ++ "の道が少しずつ固まってきたかも。") .kamo]
    else if band = .caution then
      [makeSentence (keyword ++ "は意識できてるけど、揺れる日もあるね。") .ne,
       makeSentence (keyword ++ "の段取りは見えてきたけど、余裕は少なめかな。") .kana,
       makeSentence (keyword ++ "に向けて動いてるけど、不安も残るかも。") .kamo]
    else
      [makeSentence (keyword ++ "はまだ遠くて、余裕がない日も多いね。") .ne,
       makeSentence (keyword ++ "に向けて進みたいけど、足元がしんどいかな。") .kana,
       makeSentence (keyword ++ "の準備は続けてるけど、厳しい日があるかも。") .kamo])
  else []) ++
  (if input.goal = .overseas then
    (if band = .calm then
      [makeSentence (keyword ++ "の準備が進んで、見通しがよくなったね。") .ne,
       makeSentence (keyword ++ "は動き出してて、あと少しかな。") .kana,
       makeSentence (keyword ++ "の道が少しずつ固まってきたかも。") .kamo]
    else if band = .caution then
      [makeSentence (keyword ++ "は意識できてるけど、揺れる日もあるね。") .ne,
       makeSentence (keyword ++ "の段取りは見えてきたけど、余裕は少なめかな。") .kana,
       makeSentence (keyword ++ "に向けて動いてるけど、不安も残るかも。") .kamo]
    else
      [makeSentence (keyword ++ "はまだ遠くて、余裕がない日も多いね。") .ne,
       makeSentence (keyword ++ "に向けて進みたいけど、足元がしんどいかな。") .kana,
       makeSentence (keyword ++ "の準備は続けてるけど、厳しい日があるかも。") .kamo])
  else []) ++
  (if input.goal = .other then
    (if band = .calm then
      [makeSentence (label ++ "に向けて動きが出てきて、手応えもあるね。") .ne,
       makeSentence (label ++ "は動き出してて、あと少しかな。") .kana,
       makeSentence (label ++ "の道が少しずつ固まってきたかも。") .kamo]
    else if band = .caution then
      [makeSentence (label ++ "は意識できてるけど、揺れる日もあるね。") .ne,
       makeSentence (label ++ "の段取りは見えてきたけど、余裕は少なめかな。") .kana,
       makeSentence (label ++ "に向けて動いてるけど、不安も残るかも。") .kamo]
    else
      [makeSentence (label ++ "はまだ遠くて、余裕がない日も多いね。") .ne,
       makeSentence (label ++ "に向けて進みたいけど、足元がしんどいかな。") .kana,
       makeSentence (label ++ "の準備は続けてるけど、厳しい日があるかも。") .kamo])
  else []) ++
  (if jsStartsWith scenarioKey "LOW-LOW" || qualityTier ≤ 2 then
    [makeSentence (label ++ "には向かってるけど、余裕のなさが引っかかるんだ。") .nanda,
     makeSentence (label ++ "への動きはあるけど、足元が不安だと思う。") .toOmou]
  else []) ++
  (if 4 ≤ qualityTier then
    [makeSentence (label ++ "の進め方は落ち着いてきて、選び方も迷いにくいね。") .ne,
     makeSentence (label ++ "は見えてきてるし、続け方も整ってきたかな。") .kana]
  else [])

/-- `pickSentence`: round-robin from the seeded index, skipping the avoided
ending; when every candidate is skipped, fall back to the plain seeded index;
the empty pool yields the empty sentinel sentence. -/
def pickSentence (pool : List Sentence) (seed : ℕ) (avoidEnding : Option EndingGroup) :
    Sentence :=
  if pool = [] then makeSentence "" .ne
  else
    match (List.range pool.length).findSome? (fun i =>
      let candidate := pool.getD ((seed + i) % pool.length) default
      if avoidEnding = some candidate.ending then none else some candidate) with
    | some c => c
    | none => pool.getD (seed % pool.length) default

/-- The candidate scan of `pickLine2Line3`: the first line-3 candidate (from
the offset seeded index) whose ending differs from line 2's and whose
concatenation with line 2 avoids the denylist. -/
def pickLine3Scan (line3PoolData : List Sentence) (line2 : Sentence) (seed : ℕ) :
    Option Sentence :=
  (List.range line3PoolData.length).findSome? (fun i =>
    let candidate := line3PoolData.getD ((seed + 3 + i) % line3PoolData.length) default
    if candidate.ending = line2.ending then none
    else if denylistTest (line2.text ++ candidate.text) then none
    else some candidate)

/-- `pickLine2Line3` of the second revision (the `severity` parameter is
accepted and unused, as in the source): line 2 by plain seeded round-robin,
line 3 by the constrained scan with the ending-only `pickSentence` fallback. -/
def pickLine2Line3 (line2PoolData line3PoolData : List Sentence) (seed : ℕ)
    (severity : ℕ) : Sentence × Sentence :=
  let line2 := pickSentence line2PoolData seed none
  match pickLine3Scan line3PoolData line2 seed with
  | some candidate => (line2, candidate)
  | none => (line2, pickSentence line3PoolData (seed + 7) (some line2.ending))

/-- `ensureStrainedWord`: keep line 3 when the pair already shows a strained
word, otherwise substitute the first pool candidate that has one and does not
clash with line 2's ending. -/
def ensureStrainedWord (line2 line3 : Sentence) (pool : List Sentence) : Sentence :=
  let combined := line2.text ++ line3.text
  if STRAINED_WORDS.any (fun w => jsIncludes combined w) then line3
  else
    match pool.find? (fun item =>
      STRAINED_WORDS.any (fun w => jsIncludes item.text w) && item.ending != line2.ending) with
    | some c => c
    | none => line3

/-- `buildLine4`: the severity row of `LINE4_BY_SEVERITY` (row 1 when the
index is out of range) at `variant % 3`. -/
def buildLine4 (severity : ℕ) (variant : ℕ) : String :=
  let variants := (LINE4_BY_SEVERITY.getD severity (LINE4_BY_SEVERITY.getD 1 []))
  variants.getD (variant % variants.length) ""

/-- `ensureLine2Prefix` of the second revision: strip an existing
`お元気ですか？`/`こっちは` prefix and re-attach the canonical
`お元気ですか？こっちは` opening. -/
def ensureLine2Prefix (text : String) : String :=
  let rest := jsTrim text
  let rest := if jsStartsWith rest "お元気ですか？" then ⟨rest.data.drop "お元気ですか？".length⟩ else rest
  let rest := jsDropLeadingWs rest
  let rest := if jsStartsWith rest "こっちは、" then "こっちは" ++ ⟨rest.data.drop "こっちは、".length⟩ else rest
  let rest := if jsStartsWith rest "、" then ⟨rest.data.drop 1⟩ else rest
  let rest := if jsStartsWith rest "こっちは" then ⟨rest.data.drop "こっちは".length⟩ else rest
  let rest := jsDropLeadingWs rest
  "お元気ですか？こっちは" ++ rest

/-- `pickTemplateVariant`:
`(age * 31 + household_now * 7 + kids_future * 13 + GOAL_CODE[goal] * 17) % 3`. -/
def pickTemplateVariant (input : LetterInput) : ℕ :=
  (input.age * 31 + input.household_now * 7 + input.kids_future * 13 +
    GOAL_CODE input.goal * 17) % 3

/-- The severity used by `buildTemplateLetterVariant`: the override when one
is passed, else `computeGapSeverity`; raised (capped at 4) by the inferred
difficulty for the open-ended goal. -/
def letterSeverity (input : LetterInput) (projection : Option LetterProjection)
    (severityOverride : Option ℕ) : ℕ :=
  let severityBase :=
    match severityOverride with
    | some s => s
    | none => computeGapSeverity input projection
  match input.goal with
  | .other => min 4 (severityBase + ((inferOtherGoalIntent (input.goal_other.getD "")).difficulty - 1))
  | _ => severityBase

/-- The `otherIntent` local of `buildTemplateLetterVariant`: the inferred
intent exactly when the goal is the open-ended one. -/
def letterOtherIntent (input : LetterInput) : Option OtherIntent :=
  if input.goal = .other then some (inferOtherGoalIntent (input.goal_other.getD "")) else none

/-- The seven lines assembled by `buildTemplateLetterVariant` of the second
revision, before they are joined with `"\n"`. -/
def buildTemplateLetterParts (input : LetterInput) (variant : ℕ)
    (projection : Option LetterProjection) (severityOverride : Option ℕ) : List String :=
  let scenarioKey := buildScenarioKey input projection
  let situation := pickSituation input
  let otherIntent := letterOtherIntent input
  let severity := letterSeverity input projection severityOverride
  let qualityTier := getLifeQualityTier projection
  let line2PoolData := line2Pool situation severity scenarioKey qualityTier
  let line3PoolData := line3Pool input severity scenarioKey qualityTier otherIntent
  let seed := hashString (scenarioKey ++ ":" ++ input.goal.toKey ++ ":" ++ toString variant ++
    ":" ++ toString severity)
  let picked := pickLine2Line3 line2PoolData line3PoolData seed severity
  let line2 := picked.1
  let line3 := if 3 ≤ severity then ensureStrainedWord line2 picked.2 line3PoolData else picked.2
  let line4 := buildLine4 severity variant
  ["十年前のキミへ。",
   ensureLine2Prefix line2.text,
   line3.text,
   line4,
   REQUIRED_HOOK_SENTENCE,
   REQUIRED_METHODS_SENTENCE,
   "十年後のキミより。"]

/-- Embedding of `Array.prototype.join("\n")`. -/
def jsJoinNl : List String → String
  | [] => ""
  | [x] => x
  | x :: xs => x ++ "\n" ++ jsJoinNl xs

/-- `buildTemplateLetterVariant` of the second revision: the seven lines
joined with `"\n"`. -/
def buildTemplateLetterVariant (input : LetterInput) (variant : ℕ)
    (projection : Option LetterProjection) (severityOverride : Option ℕ) : String :=
  jsJoinNl (buildTemplateLetterParts input variant projection severityOverride)

/-- `buildTemplateLetter`: `buildTemplateLetterVariant` at the deterministic
`pickTemplateVariant` variant. -/
def buildTemplateLetter (input : LetterInput) (projection : Option LetterProjection)
    (severityOverride : Option ℕ) : String :=
  buildTemplateLetterVariant input (pickTemplateVariant input) projection severityOverride

/-! ## Pool contents -/

/-- The textual tail that a sentence of each ending category carries (the
category of `なんだ` sentences textually ends in `んだ。`). -/
def catSuffix : EndingGroup → String
  | .ne => "ね。"
  | .kana => "かな。"
  | .kamo => "かも。"
  | .nanda => "んだ。"
  | .toOmou => "と思う。"

/-- Every sentence that can enter a line-2 pool (the 27 situation × band
candidates and the 4 bonus candidates). -/
def LINE2_ALL : List Sentence :=
  [makeSentence "子どもとの時間が増えて、家のリズムも穏やかだね。" .ne,
   makeSentence "家の予定は動くけど、家族のペースは保ててるかな。" .kana,
   makeSentence "子ども中心でも、気持ちは少し落ち着いてきたかも。" .kamo,
   makeSentence "子どもの予定に振り回されやすくて、家がバタつく日もあるね。" .ne,
   makeSentence "家のペースは保ってるけど、余裕はまだ少なめかな。" .kana,
   makeSentence "子どものことで疲れが残りやすいかも。" .kamo,
   makeSentence "子どものことで毎日が手一杯で、家の余裕がほとんどないね。" .ne,
   makeSentence "家の中がバタバタで、落ち着く時間が取れないかな。" .kana,
   makeSentence "子どものことで気持ちも削られがちかも。" .kamo,
   makeSentence "ふたりの暮らしが安定してて、日々のリズムは整ってるね。" .ne,
   makeSentence "ふたりの生活は落ち着いてきて、気持ちも軽いかな。" .kana,
   makeSentence "ふたりの時間は保てて、暮らしも穏やかかも。" .kamo,
   makeSentence "ふたりの暮らしは続いてるけど、余裕はまだ少なめね。" .ne,
   makeSentence "ふたりの生活は回ってるけど、整えたい所があるかな。" .kana,
   makeSentence "ふたりの時間はあるけど、気持ちは詰まりやすいかも。" .kamo,
   makeSentence "ふたりの暮らしは続いてるけど、余裕が削られてるね。" .ne,
   makeSentence "ふたりの生活が回ってても、息が詰まりやすいかな。" .kana,
   makeSentence "ふたりの時間はあるけど、しんどい日が増えたかも。" .kamo,
   makeSentence "ひとりの暮らしが整って、気持ちもゆるやかだね。" .ne,
   makeSentence "ひとりの生活は落ち着いてて、ペースも合ってるかな。" .kana,
   makeSentence "ひとりの時間は守れて、気持ちも軽くなったかも。" .kamo,
   makeSentence "ひとりの暮らしは続いてるけど、余裕が減りやすいね。" .ne,
   makeSentence "ひとりの生活は回ってるけど、見直したい所があるかな。" .kana,
   makeSentence "ひとりの時間はあるけど、疲れが残りやすいかも。" .kamo,
   makeSentence "ひとりの暮らしが続いてても、余裕がほとんどないね。" .ne,
   makeSentence "ひとりの生活は回ってるけど、気持ちが重くなるかな。" .kana,
   makeSentence "ひとりの時間はあるけど、しんどさが続くかも。" .kamo,
   makeSentence "やりくりに追われて、落ち着かない日が増えたんだ。" .nanda,
   makeSentence "少しの変化でも気持ちが揺れやすいと思う。" .toOmou,
   makeSentence "日々の流れは落ち着いていて、気持ちも整ってるね。" .ne,
   makeSentence "暮らしは安定してるし、心の余裕も出てきたかな。" .kana]

/-- The 15 fourth-line strings. -/
def LINE4_ALL : List String :=
  ["今の暮らしは落ち着いてて、次の選択も焦らず進められる感じ。",
   "生活は落ち着いてて、次の選択に迷いが少ないかな。",
   "生活は安定してるし、進め方も見えてる感じ。",
   "生活は保ててるけど、少し整える余地はあるかも。",
   "生活は続いてるけど、見直せるところが残ってるね。",
   "生活は保ててるし、整えるともう少し楽になりそう。",
   "生活は続いてるけど、負担がじわっと積もってる感じ。",
   "生活は回ってるけど、余裕のなさを感じるね。",
   "普段は回ってるけど、ふとしたときにしんどくなる日もあるんだ。",
   "生活はギリギリで、選択肢が狭く感じるんだ。",
   "生活は厳しくて、調整が必要だと感じる。",
   "生活は苦しくて、立て直しを急ぎたい感じ。",
   "生活はかなり厳しくて、今のままだと持たない気がするんだ。",
   "生活は苦しくて、早めの調整が必要だと思う。",
   "生活はしんどくて、今のままだと続かない気がする。"]

/-- Every line-3 template tail together with its ending category: the goal ×
band tails and the two bonus pairs of `line3Pool`. -/
def LINE3_TAILS : List Sentence :=
  [makeSentence "の準備が進んで、形が見えてきたね。" .ne,
   makeSentence "は動き出してて、手応えも出てきたかな。" .kana,
   makeSentence "の道が少しずつ固まってきたかも。" .kamo,
   makeSentence "は意識できてるけど、揺れる日もあるね。" .ne,
   makeSentence "の段取りは見えてきたけど、余裕は少なめかな。" .kana,
   makeSentence "に向けて動いてるけど、不安も残るかも。" .kamo,
   makeSentence "はまだ遠くて、余裕がない日も多いね。" .ne,
   makeSentence "に向けて進みたいけど、足元がしんどいかな。" .kana,
   makeSentence "の準備は続けてるけど、厳しい日があるかも。" .kamo,
   makeSentence "の準備が進んで、安心感が出てきたね。" .ne,
   makeSentence "が見えてきて、気持ちが落ち着くね。" .ne,
   makeSentence "に向けた動きは続いてて、あと少しかな。" .kana,
   makeSentence "の準備が進んで、見通しがよくなったね。" .ne,
   makeSentence "は動き出してて、あと少しかな。" .kana,
   makeSentence "に向けて動きが出てきて、手応えもあるね。" .ne,
   makeSentence "には向かってるけど、余裕のなさが引っかかるんだ。" .nanda,
   makeSentence "への動きはあるけど、足元が不安だと思う。" .toOmou,
   makeSentence "の進め方は落ち着いてきて、選び方も迷いにくいね。" .ne,
   makeSentence "は見えてきてるし、続け方も整ってきたかな。" .kana]

/-! ## The engine's chosen pair -/

/-- The `line2PoolData` local of `buildTemplateLetterVariant`. -/
def letterP2 (input : LetterInput) (projection : Option LetterProjection)
    (severityOverride : Option ℕ) : List Sentence :=
  line2Pool (pickSituation input) (letterSeverity input projection severityOverride)
    (buildScenarioKey input projection) (getLifeQualityTier projection)

/-- The `line3PoolData` local of `buildTemplateLetterVariant`. -/
def letterP3 (input : LetterInput) (projection : Option LetterProjection)
    (severityOverride : Option ℕ) : List Sentence :=
  line3Pool input (letterSeverity input projection severityOverride)
    (buildScenarioKey input projection) (getLifeQualityTier projection)
    (letterOtherIntent input)

/-- The `seed` local of `buildTemplateLetterVariant`. -/
def letterSeed (input : LetterInput) (variant : ℕ) (projection : Option LetterProjection)
    (severityOverride : Option ℕ) : ℕ :=
  hashString (buildScenarioKey input projection ++ ":" ++ input.goal.toKey ++ ":" ++
    toString variant ++ ":" ++ toString (letterSeverity input projection severityOverride))

/-- The `picked` local of `buildTemplateLetterVariant`. -/
def letterPicked (input : LetterInput) (variant : ℕ) (projection : Option LetterProjection)
    (severityOverride : Option ℕ) : Sentence × Sentence :=
  pickLine2Line3 (letterP2 input projection severityOverride)
    (letterP3 input projection severityOverride)
    (letterSeed input variant projection severityOverride)
    (letterSeverity input projection severityOverride)

/-- The `line2` local of `buildTemplateLetterVariant`. -/
def letterLine2 (input : LetterInput) (variant : ℕ) (projection : Option LetterProjection)
    (severityOverride : Option ℕ) : Sentence :=
  (letterPicked input variant projection severityOverride).1

/-- The `line3` local of `buildTemplateLetterVariant` (after the strained-word
pass). -/
def letterLine3 (input : LetterInput) (variant : ℕ) (projection : Option LetterProjection)
    (severityOverride : Option ℕ) : Sentence :=
  if 3 ≤ letterSeverity input projection severityOverride then
    ensureStrainedWord (letterPicked input variant projection severityOverride).1
      (letterPicked input variant projection severityOverride).2
      (letterP3 input projection severityOverride)
  else (letterPicked input variant projection severityOverride).2

/-! ## The letter claims -/

/-- Concrete valid input whose free-text goal contains a newline. -/
def inputNewlineGoal : LetterInput :=
  { age := 30, household_now := 2, kids_future := 1, annual_income_jpy := 5000000
    monthly_savings_jpy := 30000, current_savings_jpy := 1000000, monthly_invest_jpy := 20000
    current_invest_jpy := 500000, goal := .other, goal_other := some "あ\nい" }

/-- Concrete valid input whose free-text goal is itself a denylist pattern. -/
def inputDenylistGoal : LetterInput :=
  { age := 30, household_now := 2, kids_future := 1, annual_income_jpy := 5000000
    monthly_savings_jpy := 30000, current_savings_jpy := 1000000, monthly_invest_jpy := 20000
    current_invest_jpy := 500000, goal := .other, goal_other := some "ねかな" }

/-- Modelled from the spec: `hasSevenLines` as the claim reads it, counting
only the lines that are non-empty after trimming. -/
def hasSevenLinesSpec (text : String) : Bool :=
  ((jsSplitNl text).filter (fun l => jsTrim l != "")).length = 7

/-- Characterisation of `jsRound`: it is the unique integer `z` with
`z ≤ x + 1/2 < z + 1`, i.e. `⌊x + 1/2⌋`. -/
theorem jsRound_spec (x : ℚ) :
    (jsRound x : ℚ) ≤ x + 1/2 ∧ x + 1/2 < jsRound x + 1 := by
  have hden : (0 : ℤ) < (x.den : ℤ) := by exact_mod_cast x.pos
  set a : ℤ := 2 * x.num + (x.den : ℤ) with ha
  set b : ℤ := 2 * (x.den : ℤ) with hb
  have hbpos : (0 : ℤ) < b := by omega
  have hfe : a.fdiv b = a / b := Int.fdiv_eq_ediv a (by omega)
  have hdecomp : b * (a / b) + a % b = a := Int.ediv_add_emod a b
  have hmn : 0 ≤ a % b := Int.emod_nonneg a (by omega)
  have hmx : a % b < b := Int.emod_lt_of_pos a hbpos
  have hx : x + 1/2 = (a : ℚ) / (b : ℚ) := by
    have hq : (x.num : ℚ) / ((x.den : ℤ) : ℚ) = x := by
      rw [Int.cast_natCast]; exact Rat.num_div_den x
    rw [← hq]
    have hbne : ((x.den : ℤ) : ℚ) ≠ 0 := by
      have : (0 : ℚ) < ((x.den : ℤ) : ℚ) := by exact_mod_cast hden
      exact ne_of_gt this
    rw [ha, hb]
    field_simp
    ring
  have hbq : (0 : ℚ) < (b : ℚ) := by exact_mod_cast hbpos
  have hcast : (b : ℚ) * ((a / b : ℤ) : ℚ) + ((a % b : ℤ) : ℚ) = (a : ℚ) := by
    exact_mod_cast congrArg (fun z : ℤ => (z : ℚ)) hdecomp
  constructor
  · rw [hx, le_div_iff₀ hbq, jsRound, ← ha, ← hb, hfe]
    have h0 : (0 : ℚ) ≤ ((a % b : ℤ) : ℚ) := by exact_mod_cast hmn
    nlinarith [hcast]
  · rw [hx, div_lt_iff₀ hbq, jsRound, ← ha, ← hb, hfe]
    have h1 : ((a % b : ℤ) : ℚ) < (b : ℚ) := by exact_mod_cast hmx
    nlinarith [hcast]

theorem jsRound_nonneg {x : ℚ} (hx : 0 ≤ x) : 0 ≤ jsRound x := by
  have h := (jsRound_spec x).2
  by_contra h'
  push_neg at h'
  have h1 : jsRound x ≤ -1 := by omega
  have h2 : (jsRound x : ℚ) ≤ -1 := by exact_mod_cast h1
  linarith

theorem jsRound_mono {x y : ℚ} (h : x ≤ y) : jsRound x ≤ jsRound y := by
  have hx := (jsRound_spec x).1
  have hy := (jsRound_spec y).2
  have : (jsRound x : ℚ) < (jsRound y : ℚ) + 1 := by linarith
  exact_mod_cast Int.le_of_lt_add_one (by exact_mod_cast this)

theorem jsRound_intCast (n : ℤ) : jsRound (n : ℚ) = n := by
  have h1 := (jsRound_spec (n : ℚ)).1
  have h2 := (jsRound_spec (n : ℚ)).2
  have hle : (jsRound (n : ℚ) : ℚ) < (n : ℚ) + 1 := by linarith
  have hge : (n : ℚ) ≤ (jsRound (n : ℚ) : ℚ) + 1/2 := by linarith
  have l1 : jsRound (n : ℚ) < n + 1 := by exact_mod_cast hle
  have l2 : n ≤ jsRound (n : ℚ) := by
    by_contra hc
    push_neg at hc
    have : (jsRound (n : ℚ) : ℚ) + 1 ≤ (n : ℚ) := by exact_mod_cast hc
    linarith
  omega

/-- If `a + b = s` exactly, the sum of the two roundings is `s` or `s + 1`
(each rounding adds at most `+1/2` and subtracts less than `1/2`). -/
theorem jsRound_add_bounds {a b : ℚ} {s : ℤ} (h : a + b = (s : ℚ)) :
    s ≤ jsRound a + jsRound b ∧ jsRound a + jsRound b ≤ s + 1 := by
  have ha1 := (jsRound_spec a).1
  have ha2 := (jsRound_spec a).2
  have hb1 := (jsRound_spec b).1
  have hb2 := (jsRound_spec b).2
  constructor
  · have : (s : ℚ) < (jsRound a + jsRound b : ℤ) + 1 := by push_cast; linarith
    exact Int.le_of_lt_add_one (by exact_mod_cast this)
  · have : ((jsRound a + jsRound b : ℤ) : ℚ) ≤ (s : ℚ) + 1 := by push_cast; linarith
    exact_mod_cast this

theorem estimateSpendingMonthly_nonneg (h : ℕ) : 0 ≤ estimateSpendingMonthly h := by
  unfold estimateSpendingMonthly SINGLE_SPENDING
  split_ifs <;> norm_num

theorem jsMinList_pair (a b : ℤ) : jsMinList [a, b] = min a b := rfl

theorem jsMaxList_pair (a b : ℤ) : jsMaxList [a, b] = max a b := rfl

namespace Projections

/-! ## Projection-engine lemmas -/
theorem spending10y_nonneg (input : LetterInput) : 0 ≤ spending10y input := by
  apply jsRound_nonneg
  have h1 := estimateSpendingMonthly_nonneg input.household_now
  have h2 := estimateSpendingMonthly_nonneg (input.household_now + input.kids_future)
  have h : (0 : ℚ) ≤ ((spendingNow input + spendingFuture input : ℤ) : ℚ) := by
    unfold spendingNow spendingFuture
    exact_mod_cast add_nonneg h1 h2
  linarith

theorem spendingNow_nonneg (input : LetterInput) : 0 ≤ spendingNow input :=
  estimateSpendingMonthly_nonneg _

theorem spendingFuture_nonneg (input : LetterInput) : 0 ≤ spendingFuture input :=
  estimateSpendingMonthly_nonneg _

theorem surplusLow_nonneg (input : LetterInput) : 0 ≤ surplusLow input := le_max_left 0 _

theorem surplusHigh_nonneg (input : LetterInput) : 0 ≤ surplusHigh input := le_max_left 0 _

theorem takehomeLow_le_takehomeHigh (input : LetterInput) :
    takehomeLow input ≤ takehomeHigh input := by
  unfold takehomeLow takehomeHigh
  have h : (0 : ℚ) ≤ (input.annual_income_jpy : ℚ) / 12 := by positivity
  nlinarith

theorem surplusLow_le_surplusHigh (input : LetterInput) :
    surplusLow input ≤ surplusHigh input := by
  unfold surplusLow surplusHigh
  exact max_le_max (le_refl 0)
    (jsRound_mono (by linarith [takehomeLow_le_takehomeHigh input]))

theorem usedMonthlyTotalLow_nonneg (input : LetterInput) : 0 ≤ usedMonthlyTotalLow input :=
  le_min (Int.natCast_nonneg _) (surplusLow_nonneg input)

theorem usedMonthlyTotalHigh_nonneg (input : LetterInput) : 0 ≤ usedMonthlyTotalHigh input :=
  le_min (Int.natCast_nonneg _) (surplusHigh_nonneg input)

theorem usedMonthlyTotalLow_le_high (input : LetterInput) :
    usedMonthlyTotalLow input ≤ usedMonthlyTotalHigh input :=
  min_le_min (le_refl _) (surplusLow_le_surplusHigh input)

theorem saveRatio_nonneg (input : LetterInput) : 0 ≤ saveRatio input := by
  unfold saveRatio; split_ifs <;> positivity

theorem investRatio_nonneg (input : LetterInput) : 0 ≤ investRatio input := by
  unfold investRatio; split_ifs <;> positivity

theorem usedMonthlySavings_nonneg (input : LetterInput) : 0 ≤ usedMonthlySavings input := by
  apply jsRound_nonneg
  have h : (0 : ℚ) ≤ (usedMonthlyTotalLow input : ℚ) := by
    exact_mod_cast usedMonthlyTotalLow_nonneg input
  exact mul_nonneg h (saveRatio_nonneg input)

theorem usedMonthlyInvest_nonneg (input : LetterInput) : 0 ≤ usedMonthlyInvest input := by
  apply jsRound_nonneg
  have h : (0 : ℚ) ≤ (usedMonthlyTotalLow input : ℚ) := by
    exact_mod_cast usedMonthlyTotalLow_nonneg input
  exact mul_nonneg h (investRatio_nonneg input)

theorem savingsFuture_nonneg (input : LetterInput) : 0 ≤ savingsFuture input := by
  apply jsRound_nonneg; positivity

/-- When the stated monthly contribution is split by the preserved
savings/investment ratio, the two rounded shares sum to the capped total or
exceed it by exactly one yen. -/
theorem used_split_bounds (input : LetterInput) :
    usedMonthlyTotalLow input ≤ usedMonthlySavings input + usedMonthlyInvest input ∧
    usedMonthlySavings input + usedMonthlyInvest input ≤ usedMonthlyTotalLow input + 1 := by
  by_cases h : 0 < userMonthlyTotal input
  · have hsum : (usedMonthlyTotalLow input : ℚ) * saveRatio input +
        (usedMonthlyTotalLow input : ℚ) * investRatio input =
        ((usedMonthlyTotalLow input : ℤ) : ℚ) := by
      unfold saveRatio investRatio
      rw [if_pos h, if_pos h]
      have hu : ((userMonthlyTotal input : ℕ) : ℚ) ≠ 0 := by
        exact_mod_cast Nat.pos_iff_ne_zero.mp h
      have hsplit : (input.monthly_savings_jpy : ℚ) + (input.monthly_invest_jpy : ℚ) =
          ((userMonthlyTotal input : ℕ) : ℚ) := by
        unfold userMonthlyTotal; push_cast; ring
      calc (usedMonthlyTotalLow input : ℚ) *
            ((input.monthly_savings_jpy : ℚ) / ((userMonthlyTotal input : ℕ) : ℚ)) +
            (usedMonthlyTotalLow input : ℚ) *
            ((input.monthly_invest_jpy : ℚ) / ((userMonthlyTotal input : ℕ) : ℚ))
          = (usedMonthlyTotalLow input : ℚ) *
            (((input.monthly_savings_jpy : ℚ) + (input.monthly_invest_jpy : ℚ)) /
              ((userMonthlyTotal input : ℕ) : ℚ)) := by ring
        _ = (usedMonthlyTotalLow input : ℚ) *
            (((userMonthlyTotal input : ℕ) : ℚ) / ((userMonthlyTotal input : ℕ) : ℚ)) := by
              rw [hsplit]
        _ = ((usedMonthlyTotalLow input : ℤ) : ℚ) := by rw [div_self hu, mul_one]
    exact jsRound_add_bounds hsum
  · have h0 : userMonthlyTotal input = 0 := by omega
    have hL : usedMonthlyTotalLow input = 0 := by
      unfold usedMonthlyTotalLow
      rw [h0]
      simp [min_eq_left, surplusLow_nonneg input]
    have hs : usedMonthlySavings input = 0 := by
      unfold usedMonthlySavings
      rw [hL]
      simpa using jsRound_intCast 0
    have hi : usedMonthlyInvest input = 0 := by
      unfold usedMonthlyInvest
      rw [hL]
      simpa using jsRound_intCast 0
    rw [hL, hs, hi]
    norm_num

end Projections

theorem computeInvestFutureV1_nonneg {cur mon : ℚ} (hc : 0 ≤ cur) (hm : 0 ≤ mon)
    {rate : ℚ} (hr : 0 < rate) (years : ℕ) :
    0 ≤ ProjectionsV1.computeInvestFuture cur mon years rate := by
  unfold ProjectionsV1.computeInvestFuture
  apply jsRound_nonneg
  have hg : (1 : ℚ) ≤ (1 + rate) ^ years := one_le_pow₀ (by linarith)
  have ha : (0 : ℚ) ≤ ((1 + rate) ^ years - 1) / rate := div_nonneg (by linarith) hr.le
  positivity

theorem computeInvestFutureV2_nonneg {cur mon : ℚ} (hc : 0 ≤ cur) (hm : 0 ≤ mon)
    {rate : ℚ} (hr : 0 ≤ rate) (years : ℕ) :
    0 ≤ ProjectionsV2.computeInvestFuture cur mon years rate := by
  dsimp only [ProjectionsV2.computeInvestFuture]
  split_ifs with h0
  · apply jsRound_nonneg; positivity
  · apply jsRound_nonneg
    have hrm : (0 : ℚ) < rate / 12 := lt_of_le_of_ne (by positivity) (Ne.symm h0)
    have hg : (1 : ℚ) ≤ (1 + rate / 12) ^ (years * 12) := one_le_pow₀ (by linarith)
    have ha : (0 : ℚ) ≤ ((1 + rate / 12) ^ (years * 12) - 1) / (rate / 12) :=
      div_nonneg (by linarith) hrm.le
    exact add_nonneg (mul_nonneg hc (by linarith)) (mul_nonneg hm ha)

theorem investMinV1_nonneg (input : LetterInput) :
    0 ≤ ProjectionsV1.investMin input := by
  unfold ProjectionsV1.investMin ProjectionsV1.investValues RATES
  simp only [List.map_cons, List.map_nil, jsMinList_pair, le_min_iff]
  have hm : (0 : ℚ) ≤ (Projections.usedMonthlyInvest input : ℚ) := by
    exact_mod_cast Projections.usedMonthlyInvest_nonneg input
  exact ⟨computeInvestFutureV1_nonneg (by positivity) hm (by norm_num) YEARS,
    computeInvestFutureV1_nonneg (by positivity) hm (by norm_num) YEARS⟩

theorem investMinV1_le_investMax (input : LetterInput) :
    ProjectionsV1.investMin input ≤ ProjectionsV1.investMax input := by
  unfold ProjectionsV1.investMin ProjectionsV1.investMax ProjectionsV1.investValues RATES
  simp only [List.map_cons, List.map_nil, jsMinList_pair, jsMaxList_pair]
  exact min_le_max

theorem investMaxV1_nonneg (input : LetterInput) :
    0 ≤ ProjectionsV1.investMax input :=
  le_trans (investMinV1_nonneg input) (investMinV1_le_investMax input)

theorem investMinV2_nonneg (input : LetterInput) :
    0 ≤ ProjectionsV2.investMin input := by
  unfold ProjectionsV2.investMin ProjectionsV2.investValues RATES
  simp only [List.map_cons, List.map_nil, jsMinList_pair, le_min_iff]
  exact ⟨computeInvestFutureV2_nonneg (by positivity) (by positivity) (by norm_num) YEARS,
    computeInvestFutureV2_nonneg (by positivity) (by positivity) (by norm_num) YEARS⟩

theorem investMinV2_le_investMax (input : LetterInput) :
    ProjectionsV2.investMin input ≤ ProjectionsV2.investMax input := by
  unfold ProjectionsV2.investMin ProjectionsV2.investMax ProjectionsV2.investValues RATES
  simp only [List.map_cons, List.map_nil, jsMinList_pair, jsMaxList_pair]
  exact min_le_max

theorem investMaxV2_nonneg (input : LetterInput) :
    0 ≤ ProjectionsV2.investMax input :=
  le_trans (investMinV2_nonneg input) (investMinV2_le_investMax input)

theorem runwayMinV1_nonneg (input : LetterInput) :
    0 ≤ ProjectionsV1.runwayMin input := by
  unfold ProjectionsV1.runwayMin
  split_ifs with h
  · apply jsRound_nonneg
    apply div_nonneg
    · have := Projections.savingsFuture_nonneg input
      have := investMinV1_nonneg input
      push_cast
      exact_mod_cast add_nonneg ‹0 ≤ Projections.savingsFuture input› ‹0 ≤ ProjectionsV1.investMin input›
    · exact_mod_cast le_of_lt h
  · exact le_refl 0

theorem runwayMaxV1_nonneg (input : LetterInput) :
    0 ≤ ProjectionsV1.runwayMax input := by
  unfold ProjectionsV1.runwayMax
  split_ifs with h
  · apply jsRound_nonneg
    apply div_nonneg
    · have h1 := Projections.savingsFuture_nonneg input
      have h2 := investMaxV1_nonneg input
      push_cast
      exact_mod_cast add_nonneg h1 h2
    · exact_mod_cast le_of_lt h
  · exact le_refl 0

theorem runwayMinV2_nonneg (input : LetterInput) :
    0 ≤ ProjectionsV2.runwayMin input := by
  unfold ProjectionsV2.runwayMin
  split_ifs with h
  · apply jsRound_nonneg
    apply div_nonneg
    · have h1 := Projections.savingsFuture_nonneg input
      have h2 := investMinV2_nonneg input
      push_cast
      exact_mod_cast add_nonneg h1 h2
    · exact_mod_cast le_of_lt h
  · exact le_refl 0

theorem runwayMaxV2_nonneg (input : LetterInput) :
    0 ≤ ProjectionsV2.runwayMax input := by
  unfold ProjectionsV2.runwayMax
  split_ifs with h
  · apply jsRound_nonneg
    apply div_nonneg
    · have h1 := Projections.savingsFuture_nonneg input
      have h2 := investMaxV2_nonneg input
      push_cast
      exact_mod_cast add_nonneg h1 h2
    · exact_mod_cast le_of_lt h
  · exact le_refl 0

/-- C1: for every valid `LetterInput`, each revision of `computeProjections`
returns exactly one projection record, with `years = 10`,
`invest_min ≤ invest_max`, `total_min ≤ total_max`,
`used_monthly_total_low ≤ used_monthly_total_high`, and every monetary field
(savings future, invest bounds, totals, spending estimates, surpluses, used
contributions, runway months) non-negative. -/
theorem projection_singleton_and_invariants (input : LetterInput) (hv : ValidInput input) :
    (∃ p, ProjectionsV1.computeProjections input = [p] ∧ ProjectionInvariants p) ∧
    (∃ p, ProjectionsV2.computeProjections input = [p] ∧ ProjectionInvariants p) := by
  constructor
  · refine ⟨_, rfl, ?_⟩
    unfold ProjectionInvariants
    refine ⟨rfl, investMinV1_le_investMax input,
      add_le_add_left (investMinV1_le_investMax input) _, ?_,
      Projections.savingsFuture_nonneg input, investMinV1_nonneg input,
      investMaxV1_nonneg input,
      add_nonneg (Projections.savingsFuture_nonneg input) (investMinV1_nonneg input),
      add_nonneg (Projections.savingsFuture_nonneg input) (investMaxV1_nonneg input),
      Projections.spendingNow_nonneg input, Projections.spendingFuture_nonneg input,
      Projections.spending10y_nonneg input,
      Projections.surplusLow_nonneg input, Projections.surplusHigh_nonneg input,
      Projections.usedMonthlySavings_nonneg input, Projections.usedMonthlyInvest_nonneg input,
      ?_, ?_, ?_,
      runwayMinV1_nonneg input, runwayMaxV1_nonneg input⟩
    · show jsRound _ ≤ jsRound _
      rw [jsRound_intCast, jsRound_intCast]
      exact Projections.usedMonthlyTotalLow_le_high input
    · show 0 ≤ jsRound _
      rw [jsRound_intCast]
      exact add_nonneg (Projections.usedMonthlySavings_nonneg input)
        (Projections.usedMonthlyInvest_nonneg input)
    · show 0 ≤ jsRound _
      rw [jsRound_intCast]
      exact Projections.usedMonthlyTotalLow_nonneg input
    · show 0 ≤ jsRound _
      rw [jsRound_intCast]
      exact Projections.usedMonthlyTotalHigh_nonneg input
  · refine ⟨_, rfl, ?_⟩
    unfold ProjectionInvariants
    refine ⟨rfl, investMinV2_le_investMax input,
      add_le_add_left (investMinV2_le_investMax input) _, ?_,
      Projections.savingsFuture_nonneg input, investMinV2_nonneg input,
      investMaxV2_nonneg input,
      add_nonneg (Projections.savingsFuture_nonneg input) (investMinV2_nonneg input),
      add_nonneg (Projections.savingsFuture_nonneg input) (investMaxV2_nonneg input),
      Projections.spendingNow_nonneg input, Projections.spendingFuture_nonneg input,
      Projections.spending10y_nonneg input,
      Projections.surplusLow_nonneg input, Projections.surplusHigh_nonneg input,
      Projections.usedMonthlySavings_nonneg input, Projections.usedMonthlyInvest_nonneg input,
      ?_, ?_, ?_,
      runwayMinV2_nonneg input, runwayMaxV2_nonneg input⟩
    · show jsRound _ ≤ jsRound _
      rw [jsRound_intCast, jsRound_intCast]
      exact Projections.usedMonthlyTotalLow_le_high input
    · show 0 ≤ jsRound _
      rw [jsRound_intCast]
      exact add_nonneg (Projections.usedMonthlySavings_nonneg input)
        (Projections.usedMonthlyInvest_nonneg input)
    · show 0 ≤ jsRound _
      rw [jsRound_intCast]
      exact Projections.usedMonthlyTotalLow_nonneg input
    · show 0 ≤ jsRound _
      rw [jsRound_intCast]
      exact Projections.usedMonthlyTotalHigh_nonneg input

/-- Witness for C1 at the concrete smoke-test input. -/
theorem projection_singleton_and_invariants_witness :
    ValidInput inputSmoke ∧
    ((∃ p, ProjectionsV1.computeProjections inputSmoke = [p] ∧ ProjectionInvariants p) ∧
     (∃ p, ProjectionsV2.computeProjections inputSmoke = [p] ∧ ProjectionInvariants p)) :=
  ⟨by decide, projection_singleton_and_invariants inputSmoke (by decide)⟩

set_option maxRecDepth 100000 in
unseal Rat.add Rat.mul Rat.sub Rat.inv Rat.ofScientific in
/-- C2: the two revisions of `computeProjections` present in the corpus are
not equivalent: on the valid input `inputSeparating` (whose stated monthly
investment exceeds the computed surplus) they return different `invest_min`
values — the surplus-capped annual-compounding revision yields 0, the
raw-contribution monthly-compounding revision yields a positive value. -/
theorem projection_revisions_inequivalent :
    ValidInput inputSeparating ∧
    (ProjectionsV1.computeProjections inputSeparating).map LetterProjection.invest_min = [0] ∧
    (ProjectionsV2.computeProjections inputSeparating).map LetterProjection.invest_min = [3981590] ∧
    (ProjectionsV1.computeProjections inputSeparating).map LetterProjection.invest_min ≠
      (ProjectionsV2.computeProjections inputSeparating).map LetterProjection.invest_min := by
  refine ⟨by decide, by decide, by decide, ?_⟩
  intro h
  have h1 : (ProjectionsV1.computeProjections inputSeparating).map LetterProjection.invest_min = [0] := by decide
  have h2 : (ProjectionsV2.computeProjections inputSeparating).map LetterProjection.invest_min = [3981590] := by decide
  rw [h1, h2] at h
  simp at h

/-- C4: for every valid input, whenever the stated monthly contribution
exceeds the computed surplus of a band the used monthly total of that band
equals the surplus (and never exceeds it), and when both surplus bands are
zero every used contribution is zero and the goal-gap label is `まだ遠い`. -/
theorem contribution_capping (input : LetterInput) (hv : ValidInput input) :
    ∀ p ∈ ProjectionsV2.computeProjections input,
      (((input.monthly_savings_jpy + input.monthly_invest_jpy : ℕ) : ℤ) > p.monthly_surplus_est_low →
        p.used_monthly_total_low = p.monthly_surplus_est_low) ∧
      (((input.monthly_savings_jpy + input.monthly_invest_jpy : ℕ) : ℤ) > p.monthly_surplus_est_high →
        p.used_monthly_total_high = p.monthly_surplus_est_high) ∧
      p.used_monthly_total_low ≤ p.monthly_surplus_est_low ∧
      p.used_monthly_total_high ≤ p.monthly_surplus_est_high ∧
      ((p.monthly_surplus_est_low = 0 ∧ p.monthly_surplus_est_high = 0) →
        p.used_monthly_total_low = 0 ∧ p.used_monthly_total_high = 0 ∧
        p.used_monthly_savings = 0 ∧ p.used_monthly_invest = 0 ∧
        p.goal_gap_label = "まだ遠い") := by
  intro p hp
  simp only [ProjectionsV2.computeProjections, List.mem_singleton] at hp
  subst hp
  refine ⟨?_, ?_, ?_, ?_, ?_⟩
  · intro h
    show jsRound ((Projections.usedMonthlyTotalLow input : ℤ) : ℚ) = Projections.surplusLow input
    rw [jsRound_intCast]
    exact min_eq_right (le_of_lt h)
  · intro h
    show jsRound ((Projections.usedMonthlyTotalHigh input : ℤ) : ℚ) = Projections.surplusHigh input
    rw [jsRound_intCast]
    exact min_eq_right (le_of_lt h)
  · show jsRound ((Projections.usedMonthlyTotalLow input : ℤ) : ℚ) ≤ Projections.surplusLow input
    rw [jsRound_intCast]
    exact min_le_right _ _
  · show jsRound ((Projections.usedMonthlyTotalHigh input : ℤ) : ℚ) ≤ Projections.surplusHigh input
    rw [jsRound_intCast]
    exact min_le_right _ _
  · rintro ⟨hL, hH⟩
    replace hL : Projections.surplusLow input = 0 := hL
    replace hH : Projections.surplusHigh input = 0 := hH
    have hUL : Projections.usedMonthlyTotalLow input = 0 := by
      unfold Projections.usedMonthlyTotalLow
      rw [hL]
      exact min_eq_right (Int.natCast_nonneg _)
    have hUH : Projections.usedMonthlyTotalHigh input = 0 := by
      unfold Projections.usedMonthlyTotalHigh
      rw [hH]
      exact min_eq_right (Int.natCast_nonneg _)
    have hS : Projections.usedMonthlySavings input = 0 := by
      unfold Projections.usedMonthlySavings
      rw [hUL]
      simpa using jsRound_intCast 0
    have hI : Projections.usedMonthlyInvest input = 0 := by
      unfold Projections.usedMonthlyInvest
      rw [hUL]
      simpa using jsRound_intCast 0
    refine ⟨?_, ?_, hS, hI, ?_⟩
    · show jsRound ((Projections.usedMonthlyTotalLow input : ℤ) : ℚ) = 0
      rw [jsRound_intCast]; exact hUL
    · show jsRound ((Projections.usedMonthlyTotalHigh input : ℤ) : ℚ) = 0
      rw [jsRound_intCast]; exact hUH
    · show ProjectionsV2.goalGapLabel input = "まだ遠い"
      unfold ProjectionsV2.goalGapLabel
      rw [if_pos (Or.inl hUH)]

set_option maxRecDepth 100000 in
unseal Rat.add Rat.mul Rat.sub Rat.inv Rat.ofScientific in
/-- Witness for C4 at a concrete valid low-income input on which the clamping
and the zero-surplus branch are both exercised. -/
theorem contribution_capping_witness :
    ValidInput inputLowIncome ∧
    (∀ p ∈ ProjectionsV2.computeProjections inputLowIncome,
      p.monthly_surplus_est_low = 0 ∧ p.monthly_surplus_est_high = 0) ∧
    (∀ p ∈ ProjectionsV2.computeProjections inputLowIncome,
      (((inputLowIncome.monthly_savings_jpy + inputLowIncome.monthly_invest_jpy : ℕ) : ℤ) >
          p.monthly_surplus_est_low →
        p.used_monthly_total_low = p.monthly_surplus_est_low) ∧
      (((inputLowIncome.monthly_savings_jpy + inputLowIncome.monthly_invest_jpy : ℕ) : ℤ) >
          p.monthly_surplus_est_high →
        p.used_monthly_total_high = p.monthly_surplus_est_high) ∧
      p.used_monthly_total_low ≤ p.monthly_surplus_est_low ∧
      p.used_monthly_total_high ≤ p.monthly_surplus_est_high ∧
      ((p.monthly_surplus_est_low = 0 ∧ p.monthly_surplus_est_high = 0) →
        p.used_monthly_total_low = 0 ∧ p.used_monthly_total_high = 0 ∧
        p.used_monthly_savings = 0 ∧ p.used_monthly_invest = 0 ∧
        p.goal_gap_label = "まだ遠い")) :=
  ⟨by decide, by decide, contribution_capping inputLowIncome (by decide)⟩

set_option maxRecDepth 100000 in
unseal Rat.add Rat.mul Rat.sub Rat.inv Rat.ofScientific in
/-- C10: in every projection of the second revision, `used_monthly_total`
equals `used_monthly_savings + used_monthly_invest`, that sum lies between
`used_monthly_total_low` and `used_monthly_total_low + 1`, and on the
concrete valid input `inputOddCap` (equal stated savings and investment, odd
surplus cap) the sum exceeds `used_monthly_total_low` by exactly one yen. -/
theorem used_total_rounding_bounds :
    (∀ input : LetterInput, ValidInput input →
      ∀ p ∈ ProjectionsV2.computeProjections input,
        p.used_monthly_total = p.used_monthly_savings + p.used_monthly_invest ∧
        p.used_monthly_total_low ≤ p.used_monthly_savings + p.used_monthly_invest ∧
        p.used_monthly_savings + p.used_monthly_invest ≤ p.used_monthly_total_low + 1) ∧
    (ValidInput inputOddCap ∧
      ∀ p ∈ ProjectionsV2.computeProjections inputOddCap,
        p.used_monthly_savings + p.used_monthly_invest = p.used_monthly_total_low + 1) := by
  constructor
  · intro input hv p hp
    simp only [ProjectionsV2.computeProjections, List.mem_singleton] at hp
    subst hp
    refine ⟨(by simpa using jsRound_intCast (Projections.usedMonthlySavings input + Projections.usedMonthlyInvest input)), ?_, ?_⟩
    · simpa [jsRound_intCast] using (Projections.used_split_bounds input).1
    · simpa [jsRound_intCast] using (Projections.used_split_bounds input).2
  · exact ⟨by decide, by decide⟩

/-- Witness for C10 at the concrete input with an odd surplus cap. -/
theorem used_total_rounding_bounds_witness :
    ValidInput inputOddCap ∧
    (∀ p ∈ ProjectionsV2.computeProjections inputOddCap,
      p.used_monthly_total = p.used_monthly_savings + p.used_monthly_invest ∧
      p.used_monthly_total_low ≤ p.used_monthly_savings + p.used_monthly_invest ∧
      p.used_monthly_savings + p.used_monthly_invest ≤ p.used_monthly_total_low + 1) :=
  ⟨by decide, used_total_rounding_bounds.1 inputOddCap (by decide)⟩

/-! ## Lemmas about the embedded string and selection primitives -/

theorem checkField_bounds {value : Option ℚ} {lo hi n : ℕ}
    (h : checkField value lo hi = some n) : lo ≤ n ∧ n ≤ hi := by
  rcases hpi : parseInteger value with _ | v
  · rw [checkField, hpi] at h
    cases h
  · rw [checkField, hpi] at h
    simp only [Option.some_bind] at h
    split_ifs at h with hr
    push_neg at hr
    obtain ⟨hr1, hr2⟩ := hr
    simp only [Option.some.injEq] at h
    omega

theorem checkField_natCast {lo hi n : ℕ} (h1 : lo ≤ n) (h2 : n ≤ hi) :
    checkField (some (n : ℚ)) lo hi = some n := by
  have hno : ¬((n : ℤ) < (lo : ℤ) ∨ (hi : ℤ) < (n : ℤ)) := by
    push_neg
    exact ⟨by exact_mod_cast h1, by exact_mod_cast h2⟩
  have hp : parseInteger (some (n : ℚ)) = some (n : ℤ) := by
    simp [parseInteger]
  rw [checkField, hp]
  simp only [Option.some_bind]
  rw [if_neg hno]
  simp

theorem Goal.ofKey_toKey (g : Goal) : Goal.ofKey g.toKey = some g := by
  cases g <;> decide

theorem dropWhile_rdropWhile_eq_self {α : Type} (p : α → Bool) (l : List α) :
    ((l.dropWhile p).rdropWhile p).dropWhile p = (l.dropWhile p).rdropWhile p := by
  rw [List.dropWhile_eq_self_iff]
  intro hl
  have hpre : (l.dropWhile p).rdropWhile p <+: l.dropWhile p := List.rdropWhile_prefix p _
  rw [List.IsPrefix.get_eq hpre hl]
  exact List.dropWhile_get_zero_not p l _

/-- JS `trim` is idempotent, so the validator's trimmed `goal_other` passes
the validator's own checks unchanged. -/
theorem jsTrim_idem (s : String) : jsTrim (jsTrim s) = jsTrim s := by
  have h1 : jsTrim (jsTrim s) =
      ⟨List.rdropWhile jsWhitespace ((jsTrim s).data.dropWhile jsWhitespace)⟩ := rfl
  have h2 : (jsTrim s).data =
      List.rdropWhile jsWhitespace (s.data.dropWhile jsWhitespace) := rfl
  rw [h1, h2, dropWhile_rdropWhile_eq_self, List.rdropWhile_idempotent]
  rfl

/-- `ValidInput` is exactly the image of the validator over all payloads:
whatever `parseLetterInput` accepts it accepts again, unchanged, on the
returned record's own field values (the interesting direction rests on the
idempotence of `trim`). -/
theorem validInput_iff (i : LetterInput) :
    ValidInput i ↔ ∃ p, parseLetterInput p = some i := by
  constructor
  · exact fun h => ⟨inputPayload i, h⟩
  · rintro ⟨p, h⟩
    simp only [parseLetterInput, Option.bind_eq_bind', Option.bind_eq_some'] at h
    obtain ⟨a1, h1, a2, h2, a3, h3, a4, h4, a5, h5, a6, h6, a7, h7, a8, h8, g, hg, htail⟩ := h
    obtain ⟨b11, b12⟩ := checkField_bounds h1
    obtain ⟨b21, b22⟩ := checkField_bounds h2
    obtain ⟨b31, b32⟩ := checkField_bounds h3
    obtain ⟨b41, b42⟩ := checkField_bounds h4
    obtain ⟨b51, b52⟩ := checkField_bounds h5
    obtain ⟨b61, b62⟩ := checkField_bounds h6
    obtain ⟨b71, b72⟩ := checkField_bounds h7
    obtain ⟨b81, b82⟩ := checkField_bounds h8
    by_cases hgo : g = Goal.other
    · subst hgo
      rw [if_pos rfl] at htail
      simp only [Option.bind_eq_some'] at htail
      obtain ⟨raw, hraw, htail⟩ := htail
      split_ifs at htail with ht1 ht2
      have hi : i = ⟨a1, a2, a3, a4, a5, a6, a7, a8, Goal.other, some (jsTrim raw)⟩ := by
        injection htail with hh
        exact hh.symm
      subst hi
      simp [ValidInput, inputPayload, parseLetterInput, parseGoal, Option.bind_eq_bind',
        checkField_natCast b11 b12, checkField_natCast b21 b22, checkField_natCast b31 b32,
        checkField_natCast b41 b42, checkField_natCast b51 b52, checkField_natCast b61 b62,
        checkField_natCast b71 b72, checkField_natCast b81 b82,
        Goal.ofKey_toKey, jsTrim_idem, ht1, ht2]
    · rw [if_neg hgo] at htail
      have hi : i = ⟨a1, a2, a3, a4, a5, a6, a7, a8, g, none⟩ := by
        injection htail with hh
        exact hh.symm
      subst hi
      simp [ValidInput, inputPayload, parseLetterInput, parseGoal, Option.bind_eq_bind',
        checkField_natCast b11 b12, checkField_natCast b21 b22, checkField_natCast b31 b32,
        checkField_natCast b41 b42, checkField_natCast b51 b52, checkField_natCast b61 b62,
        checkField_natCast b71 b72, checkField_natCast b81 b82,
        Goal.ofKey_toKey, hgo]

theorem getD_mem {α : Type} [Inhabited α] (l : List α) (k : ℕ) (h : k < l.length) :
    l.getD k default ∈ l := by
  rw [ List.getD_eq_getElem l default h]
  exact List.getElem_mem h

/-- Every residue is reached by the shifted round-robin index map. -/
theorem mod_shift_surj (seed j len : ℕ) (hj : j < len) :
    ∃ i, i < len ∧ (seed + i) % len = j := by
  have hlen : 0 < len := by omega
  have hrlt : seed % len < len := Nat.mod_lt _ hlen
  rcases le_or_lt (seed % len) j with h | h
  · refine ⟨j - seed % len, by omega, ?_⟩
    rw [Nat.add_mod, Nat.mod_eq_of_lt (show j - seed % len < len by omega)]
    have he : seed % len + (j - seed % len) = j := by omega
    rw [he, Nat.mod_eq_of_lt hj]
  · refine ⟨len + j - seed % len, by omega, ?_⟩
    rw [Nat.add_mod, Nat.mod_eq_of_lt (show len + j - seed % len < len by omega)]
    have he : seed % len + (len + j - seed % len) = len + j := by omega
    rw [he, Nat.add_mod_left, Nat.mod_eq_of_lt hj]

theorem jsIncludes_append_right {a b pat : String} (h : jsIncludes b pat = true) :
    jsIncludes (a ++ b) pat = true := by
  simp only [jsIncludes, decide_eq_true_eq] at h ⊢
  rw [String.data_append]
  exact h.trans (List.suffix_append a.data b.data).isInfix

theorem jsIncludes_append_left {a b pat : String} (h : jsIncludes a pat = true) :
    jsIncludes (a ++ b) pat = true := by
  simp only [jsIncludes, decide_eq_true_eq] at h ⊢
  rw [String.data_append]
  exact h.trans ⟨[], b.data, by simp⟩

theorem jsEndsWith_append {a t pat : String} (h : jsEndsWith t pat = true) :
    jsEndsWith (a ++ t) pat = true := by
  simp only [jsEndsWith, decide_eq_true_eq] at h ⊢
  rw [String.data_append]
  exact h.trans (List.suffix_append a.data t.data)

/-- An infix of a concatenation lies in the left part, the right part, or
splits into a non-empty suffix of the left part followed by a part of the
right part. -/
theorem isInfix_append_cases {α : Type} {p a b : List α} (h : p <:+: (a ++ b)) :
    p <:+: a ∨ p <:+: b ∨
      ∃ p₁ p₂, p = p₁ ++ p₂ ∧ p₁ ≠ [] ∧ p₁ <:+ a ∧ p₂ <+: b := by
  obtain ⟨u, v, huv⟩ := h
  rcases le_or_lt (u.length + p.length) a.length with hle | hgt
  · left
    have key : a = u ++ p ++ v.take (a.length - (u ++ p).length) := by
      have h0 : ((u ++ p) ++ v).take a.length = a := by
        rw [show (u ++ p) ++ v = a ++ b from huv]
        simp
      calc a = ((u ++ p) ++ v).take a.length := h0.symm
        _ = (u ++ p).take a.length ++ v.take (a.length - (u ++ p).length) :=
          List.take_append_eq_append_take
        _ = u ++ p ++ v.take (a.length - (u ++ p).length) := by
          rw [List.take_of_length_le (show (u ++ p).length ≤ a.length by simp; omega)]
    exact ⟨u, v.take (a.length - (u ++ p).length), key.symm⟩
  · rcases le_or_lt a.length u.length with hau | hau
    · right; left
      have key : b = u.drop a.length ++ p ++ v := by
        have h0 : (u ++ (p ++ v)).drop a.length = b := by
          rw [show u ++ (p ++ v) = a ++ b by rw [← List.append_assoc]; exact huv]
          simp
        calc b = (u ++ (p ++ v)).drop a.length := h0.symm
          _ = u.drop a.length ++ (p ++ v).drop (a.length - u.length) :=
            List.drop_append_eq_append_drop
          _ = u.drop a.length ++ p ++ v := by
            rw [show a.length - u.length = 0 by omega, List.drop_zero, List.append_assoc]
      exact ⟨u.drop a.length, v, key.symm⟩
    · right; right
      refine ⟨p.take (a.length - u.length), p.drop (a.length - u.length),
        (List.take_append_drop _ p).symm, ?_, ?_, ?_⟩
      · intro hnil
        have hlt : (p.take (a.length - u.length)).length = a.length - u.length := by
          rw [List.length_take]; omega
        rw [hnil] at hlt
        simp at hlt
        omega
      · have key : a = u ++ p.take (a.length - u.length) := by
          have h0 : (u ++ (p ++ v)).take a.length = a := by
            rw [show u ++ (p ++ v) = a ++ b by rw [← List.append_assoc]; exact huv]
            simp
          calc a = (u ++ (p ++ v)).take a.length := h0.symm
            _ = u.take a.length ++ (p ++ v).take (a.length - u.length) :=
              List.take_append_eq_append_take
            _ = u ++ (p.take (a.length - u.length) ++
                v.take (a.length - u.length - p.length)) := by
              rw [List.take_of_length_le (show u.length ≤ a.length by omega),
                List.take_append_eq_append_take]
            _ = u ++ p.take (a.length - u.length) := by
              rw [show a.length - u.length - p.length = 0 by omega, List.take_zero,
                List.append_nil]
        exact ⟨u, key.symm⟩
      · have key : b = p.drop (a.length - u.length) ++ v := by
          have h0 : (u ++ (p ++ v)).drop a.length = b := by
            rw [show u ++ (p ++ v) = a ++ b by rw [← List.append_assoc]; exact huv]
            simp
          calc b = (u ++ (p ++ v)).drop a.length := h0.symm
            _ = u.drop a.length ++ (p ++ v).drop (a.length - u.length) :=
              List.drop_append_eq_append_drop
            _ = p.drop (a.length - u.length) ++ v.drop (a.length - u.length - p.length) := by
              rw [List.drop_eq_nil_of_le (show u.length ≤ a.length by omega),
                List.drop_append_eq_append_drop, List.nil_append]
            _ = p.drop (a.length - u.length) ++ v := by
              rw [show a.length - u.length - p.length = 0 by omega, List.drop_zero]
        exact ⟨v, key.symm⟩

/-- A pattern that avoids the final character of the left string cannot span
the seam of a concatenation: it occurs in one of the two parts. -/
theorem jsIncludes_append_elim {s t pat : String} (hsep : jsEndsWith s "。" = true)
    (hne : '。' ∉ pat.data) (h : jsIncludes (s ++ t) pat = true) :
    jsIncludes s pat = true ∨ jsIncludes t pat = true := by
  simp only [jsIncludes, jsEndsWith, decide_eq_true_eq] at hsep h ⊢
  rw [String.data_append] at h
  rcases isInfix_append_cases h with h1 | h1 | ⟨p₁, p₂, hp, hne1, hsuf, _⟩
  · exact Or.inl h1
  · exact Or.inr h1
  · exfalso
    have hdot : '。' ∈ p₁ := by
      rcases List.suffix_or_suffix_of_suffix hsuf hsep with hc | hc
      · rcases hc with ⟨w, hw⟩
        rcases p₁ with _ | ⟨c, cs⟩
        · exact absurd rfl hne1
        · have hlen : w.length + (cs.length + 1) = 1 := by
            have := congrArg List.length hw
            simpa using this
          have hw0 : w = [] := List.eq_nil_of_length_eq_zero (by omega)
          have hcs0 : cs = [] := List.eq_nil_of_length_eq_zero (by omega)
          subst hw0
          subst hcs0
          simp at hw
          simp [hw]
      · exact hc.subset (List.mem_singleton.mpr rfl)
    exact hne (hp ▸ List.mem_append_left p₂ hdot)

theorem splitNlChars_ne_nil (cs : List Char) : splitNlChars cs ≠ [] := by
  induction cs with
  | nil => simp [splitNlChars]
  | cons c cs ih =>
    rw [splitNlChars]
    rcases h : splitNlChars cs with _ | ⟨hd, tl⟩
    · exact absurd h ih
    · split_ifs <;> simp

theorem splitNlChars_of_no_nl {cs : List Char} (h : '\n' ∉ cs) :
    splitNlChars cs = [cs] := by
  induction cs with
  | nil => rfl
  | cons c cs ih =>
    have hc : c ≠ '\n' := fun hh => h (hh ▸ List.mem_cons_self c cs)
    have hcs : '\n' ∉ cs := fun hh => h (List.mem_cons_of_mem c hh)
    rw [splitNlChars, ih hcs]
    simp [hc]

theorem splitNlChars_append_nl {a b : List Char} (ha : '\n' ∉ a) :
    splitNlChars (a ++ '\n' :: b) = a :: splitNlChars b := by
  induction a with
  | nil =>
    rw [List.nil_append, splitNlChars]
    rcases h : splitNlChars b with _ | ⟨hd, tl⟩
    · exact absurd h (splitNlChars_ne_nil b)
    · simp
  | cons c cs ih =>
    have hc : c ≠ '\n' := fun hh => ha (hh ▸ List.mem_cons_self c cs)
    have hcs : '\n' ∉ cs := fun hh => ha (List.mem_cons_of_mem c hh)
    rw [List.cons_append, splitNlChars, ih hcs]
    simp [hc]

/-- Splitting on newline undoes joining with newline as long as no part
contains a newline. -/
theorem jsSplitNl_jsJoinNl (parts : List String) (hne : parts ≠ [])
    (h : ∀ p ∈ parts, '\n' ∉ p.data) :
    jsSplitNl (jsJoinNl parts) = parts := by
  induction parts with
  | nil => exact absurd rfl hne
  | cons x xs ih =>
    rcases xs with _ | ⟨y, ys⟩
    · have hx : '\n' ∉ x.data := h x (List.mem_cons_self _ _)
      simp only [jsJoinNl, jsSplitNl]
      rw [splitNlChars_of_no_nl hx]
      simp
    · have hx : '\n' ∉ x.data := h x (List.mem_cons_self _ _)
      have hrest : ∀ p ∈ y :: ys, '\n' ∉ p.data := fun p hp => h p (List.mem_cons_of_mem x hp)
      have hj : jsJoinNl (x :: y :: ys) = x ++ "\n" ++ jsJoinNl (y :: ys) := rfl
      simp only [jsSplitNl] at ih ⊢
      rw [hj]
      have hdata : (x ++ "\n" ++ jsJoinNl (y :: ys)).data =
          x.data ++ '\n' :: (jsJoinNl (y :: ys)).data := by
        rw [String.data_append, String.data_append,
          show ("\n" : String).data = ['\n'] by decide]
        simp
      rw [hdata, splitNlChars_append_nl hx]
      have hr := ih (by simp) hrest
      simp only [List.map_cons]
      rw [show (⟨x.data⟩ : String) = x from rfl]
      rw [hr]

/-- The selected sentence is a pool member, and when an ending is avoided and
the pool offers an alternative, the avoided ending is not returned (so the
empty-sentinel branch of `pickSentence` is unreachable on non-empty pools). -/
theorem pickSentence_spec (pool : List Sentence) (seed : ℕ) (avoid : Option EndingGroup)
    (hne : pool ≠ []) :
    pickSentence pool seed avoid ∈ pool ∧
    (∀ e, avoid = some e → (∃ x ∈ pool, x.ending ≠ e) →
      (pickSentence pool seed avoid).ending ≠ e) := by
  have hlen : 0 < pool.length := List.length_pos.mpr hne
  unfold pickSentence
  rw [if_neg hne]
  split
  · next c heq =>
    obtain ⟨i, hi, hfi⟩ := List.exists_of_findSome?_eq_some heq
    by_cases hav : avoid = some (pool.getD ((seed + i) % pool.length) default).ending
    · rw [if_pos hav] at hfi
      exact absurd hfi (by simp)
    · rw [if_neg hav] at hfi
      have hc : c = pool.getD ((seed + i) % pool.length) default := by
        injection hfi with h
        exact h.symm
      subst hc
      refine ⟨getD_mem _ _ (Nat.mod_lt _ hlen), ?_⟩
      intro e he _
      rw [he] at hav
      intro hce
      exact hav (by rw [hce])
  · next heq =>
    refine ⟨getD_mem _ _ (Nat.mod_lt _ hlen), ?_⟩
    intro e he ⟨x, hx, hxe⟩
    exfalso
    obtain ⟨j, hj, hgetj⟩ := List.mem_iff_getElem.mp hx
    obtain ⟨i, hi, hmod⟩ := mod_shift_surj seed j pool.length hj
    have hnone := List.findSome?_eq_none_iff.mp heq i (List.mem_range.mpr hi)
    rw [hmod] at hnone
    have hgd : pool.getD j default = x := by
      rw [ List.getD_eq_getElem pool default hj]
      exact hgetj
    rw [hgd] at hnone
    rw [he] at hnone
    by_cases hax : (some e : Option EndingGroup) = some x.ending
    · exact hxe (by injection hax with h; exact h.symm)
    · rw [if_neg hax] at hnone
      exact absurd hnone (by simp)

/-- A successful candidate scan returns a pool member whose ending differs
from line 2's and whose concatenation with line 2 avoids the denylist. -/
theorem pickLine3Scan_some {p3 : List Sentence} {l2 c : Sentence} {seed : ℕ}
    (h : pickLine3Scan p3 l2 seed = some c) :
    c ∈ p3 ∧ c.ending ≠ l2.ending ∧ denylistTest (l2.text ++ c.text) = false := by
  obtain ⟨i, hi, hfi⟩ := List.exists_of_findSome?_eq_some h
  have hlen : 0 < p3.length := by
    rcases p3 with _ | _
    · simp [pickLine3Scan, List.range_zero] at h
    · simp
  set cand := p3.getD ((seed + 3 + i) % p3.length) default with hcand
  by_cases h1 : cand.ending = l2.ending
  · rw [if_pos h1] at hfi
    exact absurd hfi (by simp)
  · rw [if_neg h1] at hfi
    by_cases h2 : denylistTest (l2.text ++ cand.text) = true
    · rw [if_pos h2] at hfi
      exact absurd hfi (by simp)
    · rw [if_neg h2] at hfi
      have hc : c = cand := by
        injection hfi with h
        exact h.symm
      subst hc
      exact ⟨getD_mem _ _ (Nat.mod_lt _ hlen), h1, by simpa using h2⟩

/-- The pair returned by `pickLine2Line3`: both components come from their
pools and the endings differ, as long as the line-2 pool is non-empty and the
line-3 pool contains candidates of (at least) the `ne` and `kana` endings. -/
theorem pickLine2Line3_spec (p2 p3 : List Sentence) (seed severity : ℕ)
    (h2 : p2 ≠ [])
    (hne : ∃ x ∈ p3, x.ending = .ne) (hka : ∃ x ∈ p3, x.ending = .kana) :
    (pickLine2Line3 p2 p3 seed severity).1 ∈ p2 ∧
    (pickLine2Line3 p2 p3 seed severity).2 ∈ p3 ∧
    (pickLine2Line3 p2 p3 seed severity).2.ending ≠
      (pickLine2Line3 p2 p3 seed severity).1.ending := by
  have h3 : p3 ≠ [] := by
    rcases hne with ⟨x, hx, _⟩
    exact List.ne_nil_of_mem hx
  have hl2 := (pickSentence_spec p2 seed none h2).1
  simp only [pickLine2Line3]
  split
  · next c heq =>
    obtain ⟨hc1, hc2, _⟩ := pickLine3Scan_some heq
    exact ⟨hl2, hc1, hc2⟩
  · next heq =>
    set l2 := pickSentence p2 seed none with hdefl2
    have hwit : ∃ x ∈ p3, x.ending ≠ l2.ending := by
      rcases hne with ⟨x, hx, hxe⟩
      rcases hka with ⟨y, hy, hye⟩
      by_cases hl : l2.ending = .ne
      · exact ⟨y, hy, by rw [hye, hl]; simp⟩
      · exact ⟨x, hx, by rw [hxe]; exact fun hh => hl hh.symm⟩
    have := pickSentence_spec p3 (seed + 7) (some l2.ending) h3
    exact ⟨hl2, this.1, this.2 l2.ending rfl hwit⟩

/-- The result of `ensureStrainedWord`: pool membership and the ending
constraint are preserved, and when the pool offers a strained candidate with
a compatible ending the final line-2/line-3 pair shows a strained word. -/
theorem ensureStrainedWord_spec (l2 l3 : Sentence) (pool : List Sentence)
    (hmem : l3 ∈ pool) (hend : l3.ending ≠ l2.ending) :
    ensureStrainedWord l2 l3 pool ∈ pool ∧
    (ensureStrainedWord l2 l3 pool).ending ≠ l2.ending ∧
    ((∃ x ∈ pool, (STRAINED_WORDS.any (fun w => jsIncludes x.text w)) = true ∧
        x.ending ≠ l2.ending) →
      (STRAINED_WORDS.any
        (fun w => jsIncludes (l2.text ++ (ensureStrainedWord l2 l3 pool).text) w)) = true) := by
  simp only [ensureStrainedWord]
  split_ifs with h1
  · exact ⟨hmem, hend, fun _ => h1⟩
  · split
    · next c heq =>
      have hc := List.find?_some heq
      have hcm := List.mem_of_find?_eq_some heq
      simp only [Bool.and_eq_true, bne_iff_ne] at hc
      refine ⟨hcm, hc.2, fun _ => ?_⟩
      rcases List.any_eq_true.mp hc.1 with ⟨w, hw, hwc⟩
      exact List.any_eq_true.mpr ⟨w, hw, jsIncludes_append_right hwc⟩
    · next heq =>
      refine ⟨hmem, hend, fun hwit => ?_⟩
      exfalso
      rcases hwit with ⟨x, hx, hxs, hxe⟩
      have := List.find?_eq_none.mp heq x hx
      simp only [Bool.and_eq_true, bne_iff_ne, not_and] at this
      exact absurd (this hxs) (by simpa using hxe)

theorem catSuffix_not_suffix (e1 e2 : EndingGroup) (h : e1 ≠ e2) :
    ¬ (catSuffix e1).data <:+ (catSuffix e2).data := by
  cases e1 <;> cases e2 <;> first
    | exact absurd rfl h
    | decide

/-- Two strings cannot both be suffixes of one string when the category
tails are incompatible. -/
theorem catSuffix_incompat {e1 e2 : EndingGroup} (h : e1 ≠ e2) {s : List Char}
    (h1 : (catSuffix e1).data <:+ s) (h2 : (catSuffix e2).data <:+ s) : False := by
  rcases List.suffix_or_suffix_of_suffix h1 h2 with hc | hc
  · exact catSuffix_not_suffix e1 e2 h hc
  · exact catSuffix_not_suffix e2 e1 (Ne.symm h) hc

theorem getD_mem_of_lt {α : Type} (l : List α) (k : ℕ) (d : α) (h : k < l.length) :
    l.getD k d ∈ l := by
  rw [ List.getD_eq_getElem l d h]
  exact List.getElem_mem h

theorem subset_ite {c : Prop} [Decidable c] {A B L : List Sentence}
    (hA : A ⊆ L) (hB : B ⊆ L) : (if c then A else B) ⊆ L := by
  split_ifs <;> assumption

theorem forall_mem_ite {c : Prop} [Decidable c] {A B : List Sentence}
    {P : Sentence → Prop} (hA : c → ∀ s ∈ A, P s) (hB : ¬c → ∀ s ∈ B, P s) :
    ∀ s ∈ (if c then A else B), P s := by
  split_ifs with h
  · exact hA h
  · exact hB h

theorem line2Pool_subset (situation : Situation) (severity : ℕ) (scenarioKey : String)
    (qualityTier : ℕ) : line2Pool situation severity scenarioKey qualityTier ⊆ LINE2_ALL := by
  simp only [line2Pool]
  refine List.append_subset.mpr ⟨List.append_subset.mpr ⟨List.append_subset.mpr
    ⟨List.append_subset.mpr ⟨?_, ?_⟩, ?_⟩, ?_⟩, ?_⟩
  · exact subset_ite (subset_ite (by decide) (subset_ite (by decide) (by decide)))
      (List.nil_subset _)
  · exact subset_ite (subset_ite (by decide) (subset_ite (by decide) (by decide)))
      (List.nil_subset _)
  · exact subset_ite (subset_ite (by decide) (subset_ite (by decide) (by decide)))
      (List.nil_subset _)
  · exact subset_ite (by decide) (List.nil_subset _)
  · exact subset_ite (by decide) (List.nil_subset _)

theorem line2Pool_ne_nil (situation : Situation) (severity : ℕ) (scenarioKey : String)
    (qualityTier : ℕ) : line2Pool situation severity scenarioKey qualityTier ≠ [] := by
  rcases hb : severityBand severity <;> cases situation <;>
    simp [line2Pool, hb]

/-- Facts checked over the finite line-2 candidate table: each candidate
ends with its category tail (hence with `。`), survives `ensureLine2Prefix`
verbatim behind the canonical opening, contains no newline and no denylist
pattern after prefixing. -/
theorem line2_all_facts : ∀ s ∈ LINE2_ALL,
    jsEndsWith s.text (catSuffix s.ending) = true ∧
    jsEndsWith s.text "。" = true ∧
    ensureLine2Prefix s.text = "お元気ですか？こっちは" ++ s.text ∧
    ('\n' ∉ (ensureLine2Prefix s.text).data) ∧
    denylistTest (ensureLine2Prefix s.text) = false ∧
    jsEndsWith (ensureLine2Prefix s.text) (catSuffix s.ending) = true ∧
    jsEndsWith (ensureLine2Prefix s.text) "。" = true := by
  decide

theorem buildLine4_mem (severity variant : ℕ) : buildLine4 severity variant ∈ LINE4_ALL := by
  have hrow : ∀ row ∈ LINE4_BY_SEVERITY, row ⊆ LINE4_ALL ∧ row.length = 3 := by decide
  unfold buildLine4
  rcases lt_or_le severity LINE4_BY_SEVERITY.length with h | h
  · have hm : LINE4_BY_SEVERITY.getD severity (LINE4_BY_SEVERITY.getD 1 []) ∈
        LINE4_BY_SEVERITY := getD_mem_of_lt _ _ _ h
    obtain ⟨hsub, hlen⟩ := hrow _ hm
    apply hsub
    apply getD_mem_of_lt
    rw [hlen]
    exact Nat.mod_lt _ (by norm_num)
  · rw [List.getD_eq_default _ _ h]
    have hm : LINE4_BY_SEVERITY.getD 1 [] ∈ LINE4_BY_SEVERITY :=
      getD_mem_of_lt _ _ _ (by decide)
    obtain ⟨hsub, hlen⟩ := hrow _ hm
    apply hsub
    apply getD_mem_of_lt
    rw [hlen]
    exact Nat.mod_lt _ (by norm_num)

/-- Facts checked over the 15 fourth lines: trimming is the identity, the
line contains exactly one `。` and ends with it, contains no newline. -/
theorem line4_all_facts : ∀ s ∈ LINE4_ALL,
    jsTrim s = s ∧ s.data.count '。' = 1 ∧ jsEndsWith s "。" = true ∧
    s ≠ "" ∧ ('\n' ∉ s.data) := by
  decide

/-- Facts checked over the 19 line-3 tails: each ends with its category tail
(hence with `。`) and contains no newline. -/
theorem line3_tails_facts : ∀ t ∈ LINE3_TAILS,
    jsEndsWith t.text (catSuffix t.ending) = true ∧ jsEndsWith t.text "。" = true ∧
    ('\n' ∉ t.text.data) := by
  decide

theorem shape_triple (label : String) (t1 t2 t3 : Sentence)
    (h1 : t1 ∈ LINE3_TAILS) (h2 : t2 ∈ LINE3_TAILS) (h3 : t3 ∈ LINE3_TAILS) :
    ∀ s ∈ [makeSentence (label ++ t1.text) t1.ending,
           makeSentence (label ++ t2.text) t2.ending,
           makeSentence (label ++ t3.text) t3.ending],
      ∃ t ∈ LINE3_TAILS, s = makeSentence (label ++ t.text) t.ending := by
  intro s hs
  simp only [List.mem_cons, List.not_mem_nil, or_false] at hs
  rcases hs with rfl | rfl | rfl
  · exact ⟨t1, h1, rfl⟩
  · exact ⟨t2, h2, rfl⟩
  · exact ⟨t3, h3, rfl⟩

theorem shape_pair (label : String) (t1 t2 : Sentence)
    (h1 : t1 ∈ LINE3_TAILS) (h2 : t2 ∈ LINE3_TAILS) :
    ∀ s ∈ [makeSentence (label ++ t1.text) t1.ending,
           makeSentence (label ++ t2.text) t2.ending],
      ∃ t ∈ LINE3_TAILS, s = makeSentence (label ++ t.text) t.ending := by
  intro s hs
  simp only [List.mem_cons, List.not_mem_nil, or_false] at hs
  rcases hs with rfl | rfl
  · exact ⟨t1, h1, rfl⟩
  · exact ⟨t2, h2, rfl⟩

/-- Every sentence of a line-3 pool is the pool label followed by one of the
fixed tails, carrying that tail's ending category. -/
theorem line3Pool_shape (input : LetterInput) (severity : ℕ) (scenarioKey : String)
    (qualityTier : ℕ) (intent : Option OtherIntent) :
    ∀ s ∈ line3Pool input severity scenarioKey qualityTier intent,
      ∃ t ∈ LINE3_TAILS, s = makeSentence (line3Label input intent ++ t.text) t.ending := by
  simp only [line3Pool]
  refine List.forall_mem_append.mpr ⟨List.forall_mem_append.mpr ⟨List.forall_mem_append.mpr
    ⟨List.forall_mem_append.mpr ⟨List.forall_mem_append.mpr ⟨List.forall_mem_append.mpr
    ⟨?_, ?_⟩, ?_⟩, ?_⟩, ?_⟩, ?_⟩, ?_⟩
  · refine forall_mem_ite (fun hg => ?_) (fun h => List.forall_mem_nil _)
    have hlab : line3Label input intent = goalKeyword input := by
      simp [line3Label, hg]
    rw [hlab]
    refine forall_mem_ite (fun h => ?_) (fun h => forall_mem_ite (fun h => ?_) (fun h => ?_))
    · exact shape_triple _ ⟨"の準備が進んで、形が見えてきたね。", .ne⟩ ⟨"は動き出してて、手応えも出てきたかな。", .kana⟩ ⟨"の道が少しずつ固まってきたかも。", .kamo⟩ (by decide) (by decide) (by decide)
    · exact shape_triple _ ⟨"は意識できてるけど、揺れる日もあるね。", .ne⟩ ⟨"の段取りは見えてきたけど、余裕は少なめかな。", .kana⟩ ⟨"に向けて動いてるけど、不安も残るかも。", .kamo⟩ (by decide) (by decide) (by decide)
    · exact shape_triple _ ⟨"はまだ遠くて、余裕がない日も多いね。", .ne⟩ ⟨"に向けて進みたいけど、足元がしんどいかな。", .kana⟩ ⟨"の準備は続けてるけど、厳しい日があるかも。", .kamo⟩ (by decide) (by decide) (by decide)
  · refine forall_mem_ite (fun hg => ?_) (fun h => List.forall_mem_nil _)
    have hlab : line3Label input intent = goalKeyword input := by
      simp [line3Label, hg]
    rw [hlab]
    refine forall_mem_ite (fun h => ?_) (fun h => forall_mem_ite (fun h => ?_) (fun h => ?_))
    · exact shape_triple _ ⟨"の準備が進んで、安心感が出てきたね。", .ne⟩ ⟨"は動き出してて、手応えも出てきたかな。", .kana⟩ ⟨"の道が少しずつ固まってきたかも。", .kamo⟩ (by decide) (by decide) (by decide)
    · exact shape_triple _ ⟨"は意識できてるけど、揺れる日もあるね。", .ne⟩ ⟨"の段取りは見えてきたけど、余裕は少なめかな。", .kana⟩ ⟨"に向けて動いてるけど、不安も残るかも。", .kamo⟩ (by decide) (by decide) (by decide)
    · exact shape_triple _ ⟨"はまだ遠くて、余裕がない日も多いね。", .ne⟩ ⟨"に向けて進みたいけど、足元がしんどいかな。", .kana⟩ ⟨"の準備は続けてるけど、厳しい日があるかも。", .kamo⟩ (by decide) (by decide) (by decide)
  · refine forall_mem_ite (fun hg => ?_) (fun h => List.forall_mem_nil _)
    have hlab : line3Label input intent = goalKeyword input := by
      simp [line3Label, hg]
    rw [hlab]
    refine forall_mem_ite (fun h => ?_) (fun h => forall_mem_ite (fun h => ?_) (fun h => ?_))
    · exact shape_triple _ ⟨"が見えてきて、気持ちが落ち着くね。", .ne⟩ ⟨"に向けた動きは続いてて、あと少しかな。", .kana⟩ ⟨"の道が少しずつ固まってきたかも。", .kamo⟩ (by decide) (by decide) (by decide)
    · exact shape_triple _ ⟨"は意識できてるけど、揺れる日もあるね。", .ne⟩ ⟨"の段取りは見えてきたけど、余裕は少なめかな。", .kana⟩ ⟨"に向けて動いてるけど、不安も残るかも。", .kamo⟩ (by decide) (by decide) (by decide)
    · exact shape_triple _ ⟨"はまだ遠くて、余裕がない日も多いね。", .ne⟩ ⟨"に向けて進みたいけど、足元がしんどいかな。", .kana⟩ ⟨"の準備は続けてるけど、厳しい日があるかも。", .kamo⟩ (by decide) (by decide) (by decide)
  · refine forall_mem_ite (fun hg => ?_) (fun h => List.forall_mem_nil _)
    have hlab : line3Label input intent = goalKeyword input := by
      simp [line3Label, hg]
    rw [hlab]
    refine forall_mem_ite (fun h => ?_) (fun h => forall_mem_ite (fun h => ?_) (fun h => ?_))
    · exact shape_triple _ ⟨"の準備が進んで、見通しがよくなったね。", .ne⟩ ⟨"は動き出してて、あと少しかな。", .kana⟩ ⟨"の道が少しずつ固まってきたかも。", .kamo⟩ (by decide) (by decide) (by decide)
    · exact shape_triple _ ⟨"は意識できてるけど、揺れる日もあるね。", .ne⟩ ⟨"の段取りは見えてきたけど、余裕は少なめかな。", .kana⟩ ⟨"に向けて動いてるけど、不安も残るかも。", .kamo⟩ (by decide) (by decide) (by decide)
    · exact shape_triple _ ⟨"はまだ遠くて、余裕がない日も多いね。", .ne⟩ ⟨"に向けて進みたいけど、足元がしんどいかな。", .kana⟩ ⟨"の準備は続けてるけど、厳しい日があるかも。", .kamo⟩ (by decide) (by decide) (by decide)
  · refine forall_mem_ite (fun hg => ?_) (fun h => List.forall_mem_nil _)
    refine forall_mem_ite (fun h => ?_) (fun h => forall_mem_ite (fun h => ?_) (fun h => ?_))
    · exact shape_triple _ ⟨"に向けて動きが出てきて、手応えもあるね。", .ne⟩ ⟨"は動き出してて、あと少しかな。", .kana⟩ ⟨"の道が少しずつ固まってきたかも。", .kamo⟩ (by decide) (by decide) (by decide)
    · exact shape_triple _ ⟨"は意識できてるけど、揺れる日もあるね。", .ne⟩ ⟨"の段取りは見えてきたけど、余裕は少なめかな。", .kana⟩ ⟨"に向けて動いてるけど、不安も残るかも。", .kamo⟩ (by decide) (by decide) (by decide)
    · exact shape_triple _ ⟨"はまだ遠くて、余裕がない日も多いね。", .ne⟩ ⟨"に向けて進みたいけど、足元がしんどいかな。", .kana⟩ ⟨"の準備は続けてるけど、厳しい日があるかも。", .kamo⟩ (by decide) (by decide) (by decide)
  · refine forall_mem_ite (fun h => ?_) (fun h => List.forall_mem_nil _)
    exact shape_pair _ ⟨"には向かってるけど、余裕のなさが引っかかるんだ。", .nanda⟩ ⟨"への動きはあるけど、足元が不安だと思う。", .toOmou⟩ (by decide) (by decide)
  · refine forall_mem_ite (fun h => ?_) (fun h => List.forall_mem_nil _)
    exact shape_pair _ ⟨"の進め方は落ち着いてきて、選び方も迷いにくいね。", .ne⟩ ⟨"は見えてきてるし、続け方も整ってきたかな。", .kana⟩ (by decide) (by decide)

/-- The goal-segment triple of a line-3 pool: the pool holds members of the
`ne`, `kana` and `kamo` ending categories, and in the strained band each of
those members carries a strained vocabulary word. -/
theorem line3Pool_core (input : LetterInput) (severity : ℕ) (scenarioKey : String)
    (qualityTier : ℕ) (intent : Option OtherIntent) :
    (∃ x ∈ line3Pool input severity scenarioKey qualityTier intent,
      x.ending = .ne ∧ (severityBand severity = .strained →
        (STRAINED_WORDS.any (fun w => jsIncludes x.text w)) = true)) ∧
    (∃ x ∈ line3Pool input severity scenarioKey qualityTier intent,
      x.ending = .kana ∧ (severityBand severity = .strained →
        (STRAINED_WORDS.any (fun w => jsIncludes x.text w)) = true)) ∧
    (∃ x ∈ line3Pool input severity scenarioKey qualityTier intent,
      x.ending = .kamo ∧ (severityBand severity = .strained →
        (STRAINED_WORDS.any (fun w => jsIncludes x.text w)) = true)) := by
  cases hg : input.goal <;> cases hb : severityBand severity
  · refine ⟨⟨makeSentence (goalKeyword input ++ "の準備が進んで、形が見えてきたね。") .ne, ?_, rfl, ?_⟩,
      ⟨makeSentence (goalKeyword input ++ "は動き出してて、手応えも出てきたかな。") .kana, ?_, rfl, ?_⟩,
      ⟨makeSentence (goalKeyword input ++ "の道が少しずつ固まってきたかも。") .kamo, ?_, rfl, ?_⟩⟩
    · simp [line3Pool, hg, hb]
    · intro hs
      exact absurd hs (by decide)
    · simp [line3Pool, hg, hb]
    · intro hs
      exact absurd hs (by decide)
    · simp [line3Pool, hg, hb]
    · intro hs
      exact absurd hs (by decide)
  · refine ⟨⟨makeSentence (goalKeyword input ++ "は意識できてるけど、揺れる日もあるね。") .ne, ?_, rfl, ?_⟩,
      ⟨makeSentence (goalKeyword input ++ "の段取りは見えてきたけど、余裕は少なめかな。") .kana, ?_, rfl, ?_⟩,
      ⟨makeSentence (goalKeyword input ++ "に向けて動いてるけど、不安も残るかも。") .kamo, ?_, rfl, ?_⟩⟩
    · simp [line3Pool, hg, hb]
    · intro hs
      exact absurd hs (by decide)
    · simp [line3Pool, hg, hb]
    · intro hs
      exact absurd hs (by decide)
    · simp [line3Pool, hg, hb]
    · intro hs
      exact absurd hs (by decide)
  · refine ⟨⟨makeSentence (goalKeyword input ++ "はまだ遠くて、余裕がない日も多いね。") .ne, ?_, rfl, ?_⟩,
      ⟨makeSentence (goalKeyword input ++ "に向けて進みたいけど、足元がしんどいかな。") .kana, ?_, rfl, ?_⟩,
      ⟨makeSentence (goalKeyword input ++ "の準備は続けてるけど、厳しい日があるかも。") .kamo, ?_, rfl, ?_⟩⟩
    · simp [line3Pool, hg, hb]
    · intro hs
      exact List.any_eq_true.mpr ⟨"余裕がない", by decide, jsIncludes_append_right (by decide)⟩
    · simp [line3Pool, hg, hb]
    · intro hs
      exact List.any_eq_true.mpr ⟨"しんどい", by decide, jsIncludes_append_right (by decide)⟩
    · simp [line3Pool, hg, hb]
    · intro hs
      exact List.any_eq_true.mpr ⟨"厳しい", by decide, jsIncludes_append_right (by decide)⟩
  · refine ⟨⟨makeSentence (goalKeyword input ++ "の準備が進んで、安心感が出てきたね。") .ne, ?_, rfl, ?_⟩,
      ⟨makeSentence (goalKeyword input ++ "は動き出してて、手応えも出てきたかな。") .kana, ?_, rfl, ?_⟩,
      ⟨makeSentence (goalKeyword input ++ "の道が少しずつ固まってきたかも。") .kamo, ?_, rfl, ?_⟩⟩
    · simp [line3Pool, hg, hb]
    · intro hs
      exact absurd hs (by decide)
    · simp [line3Pool, hg, hb]
    · intro hs
      exact absurd hs (by decide)
    · simp [line3Pool, hg, hb]
    · intro hs
      exact absurd hs (by decide)
  · refine ⟨⟨makeSentence (goalKeyword input ++ "は意識できてるけど、揺れる日もあるね。") .ne, ?_, rfl, ?_⟩,
      ⟨makeSentence (goalKeyword input ++ "の段取りは見えてきたけど、余裕は少なめかな。") .kana, ?_, rfl, ?_⟩,
      ⟨makeSentence (goalKeyword input ++ "に向けて動いてるけど、不安も残るかも。") .kamo, ?_, rfl, ?_⟩⟩
    · simp [line3Pool, hg, hb]
    · intro hs
      exact absurd hs (by decide)
    · simp [line3Pool, hg, hb]
    · intro hs
      exact absurd hs (by decide)
    · simp [line3Pool, hg, hb]
    · intro hs
      exact absurd hs (by decide)
  · refine ⟨⟨makeSentence (goalKeyword input ++ "はまだ遠くて、余裕がない日も多いね。") .ne, ?_, rfl, ?_⟩,
      ⟨makeSentence (goalKeyword input ++ "に向けて進みたいけど、足元がしんどいかな。") .kana, ?_, rfl, ?_⟩,
      ⟨makeSentence (goalKeyword input ++ "の準備は続けてるけど、厳しい日があるかも。") .kamo, ?_, rfl, ?_⟩⟩
    · simp [line3Pool, hg, hb]
    · intro hs
      exact List.any_eq_true.mpr ⟨"余裕がない", by decide, jsIncludes_append_right (by decide)⟩
    · simp [line3Pool, hg, hb]
    · intro hs
      exact List.any_eq_true.mpr ⟨"しんどい", by decide, jsIncludes_append_right (by decide)⟩
    · simp [line3Pool, hg, hb]
    · intro hs
      exact List.any_eq_true.mpr ⟨"厳しい", by decide, jsIncludes_append_right (by decide)⟩
  · refine ⟨⟨makeSentence (goalKeyword input ++ "が見えてきて、気持ちが落ち着くね。") .ne, ?_, rfl, ?_⟩,
      ⟨makeSentence (goalKeyword input ++ "に向けた動きは続いてて、あと少しかな。") .kana, ?_, rfl, ?_⟩,
      ⟨makeSentence (goalKeyword input ++ "の道が少しずつ固まってきたかも。") .kamo, ?_, rfl, ?_⟩⟩
    · simp [line3Pool, hg, hb]
    · intro hs
      exact absurd hs (by decide)
    · simp [line3Pool, hg, hb]
    · intro hs
      exact absurd hs (by decide)
    · simp [line3Pool, hg, hb]
    · intro hs
      exact absurd hs (by decide)
  · refine ⟨⟨makeSentence (goalKeyword input ++ "は意識できてるけど、揺れる日もあるね。") .ne, ?_, rfl, ?_⟩,
      ⟨makeSentence (goalKeyword input ++ "の段取りは見えてきたけど、余裕は少なめかな。") .kana, ?_, rfl, ?_⟩,
      ⟨makeSentence (goalKeyword input ++ "に向けて動いてるけど、不安も残るかも。") .kamo, ?_, rfl, ?_⟩⟩
    · simp [line3Pool, hg, hb]
    · intro hs
      exact absurd hs (by decide)
    · simp [line3Pool, hg, hb]
    · intro hs
      exact absurd hs (by decide)
    · simp [line3Pool, hg, hb]
    · intro hs
      exact absurd hs (by decide)
  · refine ⟨⟨makeSentence (goalKeyword input ++ "はまだ遠くて、余裕がない日も多いね。") .ne, ?_, rfl, ?_⟩,
      ⟨makeSentence (goalKeyword input ++ "に向けて進みたいけど、足元がしんどいかな。") .kana, ?_, rfl, ?_⟩,
      ⟨makeSentence (goalKeyword input ++ "の準備は続けてるけど、厳しい日があるかも。") .kamo, ?_, rfl, ?_⟩⟩
    · simp [line3Pool, hg, hb]
    · intro hs
      exact List.any_eq_true.mpr ⟨"余裕がない", by decide, jsIncludes_append_right (by decide)⟩
    · simp [line3Pool, hg, hb]
    · intro hs
      exact List.any_eq_true.mpr ⟨"しんどい", by decide, jsIncludes_append_right (by decide)⟩
    · simp [line3Pool, hg, hb]
    · intro hs
      exact List.any_eq_true.mpr ⟨"厳しい", by decide, jsIncludes_append_right (by decide)⟩
  · refine ⟨⟨makeSentence (goalKeyword input ++ "の準備が進んで、見通しがよくなったね。") .ne, ?_, rfl, ?_⟩,
      ⟨makeSentence (goalKeyword input ++ "は動き出してて、あと少しかな。") .kana, ?_, rfl, ?_⟩,
      ⟨makeSentence (goalKeyword input ++ "の道が少しずつ固まってきたかも。") .kamo, ?_, rfl, ?_⟩⟩
    · simp [line3Pool, hg, hb]
    · intro hs
      exact absurd hs (by decide)
    · simp [line3Pool, hg, hb]
    · intro hs
      exact absurd hs (by decide)
    · simp [line3Pool, hg, hb]
    · intro hs
      exact absurd hs (by decide)
  · refine ⟨⟨makeSentence (goalKeyword input ++ "は意識できてるけど、揺れる日もあるね。") .ne, ?_, rfl, ?_⟩,
      ⟨makeSentence (goalKeyword input ++ "の段取りは見えてきたけど、余裕は少なめかな。") .kana, ?_, rfl, ?_⟩,
      ⟨makeSentence (goalKeyword input ++ "に向けて動いてるけど、不安も残るかも。") .kamo, ?_, rfl, ?_⟩⟩
    · simp [line3Pool, hg, hb]
    · intro hs
      exact absurd hs (by decide)
    · simp [line3Pool, hg, hb]
    · intro hs
      exact absurd hs (by decide)
    · simp [line3Pool, hg, hb]
    · intro hs
      exact absurd hs (by decide)
  · refine ⟨⟨makeSentence (goalKeyword input ++ "はまだ遠くて、余裕がない日も多いね。") .ne, ?_, rfl, ?_⟩,
      ⟨makeSentence (goalKeyword input ++ "に向けて進みたいけど、足元がしんどいかな。") .kana, ?_, rfl, ?_⟩,
      ⟨makeSentence (goalKeyword input ++ "の準備は続けてるけど、厳しい日があるかも。") .kamo, ?_, rfl, ?_⟩⟩
    · simp [line3Pool, hg, hb]
    · intro hs
      exact List.any_eq_true.mpr ⟨"余裕がない", by decide, jsIncludes_append_right (by decide)⟩
    · simp [line3Pool, hg, hb]
    · intro hs
      exact List.any_eq_true.mpr ⟨"しんどい", by decide, jsIncludes_append_right (by decide)⟩
    · simp [line3Pool, hg, hb]
    · intro hs
      exact List.any_eq_true.mpr ⟨"厳しい", by decide, jsIncludes_append_right (by decide)⟩
  · refine ⟨⟨makeSentence (line3Label input intent ++ "に向けて動きが出てきて、手応えもあるね。") .ne, ?_, rfl, ?_⟩,
      ⟨makeSentence (line3Label input intent ++ "は動き出してて、あと少しかな。") .kana, ?_, rfl, ?_⟩,
      ⟨makeSentence (line3Label input intent ++ "の道が少しずつ固まってきたかも。") .kamo, ?_, rfl, ?_⟩⟩
    · simp [line3Pool, hg, hb]
    · intro hs
      exact absurd hs (by decide)
    · simp [line3Pool, hg, hb]
    · intro hs
      exact absurd hs (by decide)
    · simp [line3Pool, hg, hb]
    · intro hs
      exact absurd hs (by decide)
  · refine ⟨⟨makeSentence (line3Label input intent ++ "は意識できてるけど、揺れる日もあるね。") .ne, ?_, rfl, ?_⟩,
      ⟨makeSentence (line3Label input intent ++ "の段取りは見えてきたけど、余裕は少なめかな。") .kana, ?_, rfl, ?_⟩,
      ⟨makeSentence (line3Label input intent ++ "に向けて動いてるけど、不安も残るかも。") .kamo, ?_, rfl, ?_⟩⟩
    · simp [line3Pool, hg, hb]
    · intro hs
      exact absurd hs (by decide)
    · simp [line3Pool, hg, hb]
    · intro hs
      exact absurd hs (by decide)
    · simp [line3Pool, hg, hb]
    · intro hs
      exact absurd hs (by decide)
  · refine ⟨⟨makeSentence (line3Label input intent ++ "はまだ遠くて、余裕がない日も多いね。") .ne, ?_, rfl, ?_⟩,
      ⟨makeSentence (line3Label input intent ++ "に向けて進みたいけど、足元がしんどいかな。") .kana, ?_, rfl, ?_⟩,
      ⟨makeSentence (line3Label input intent ++ "の準備は続けてるけど、厳しい日があるかも。") .kamo, ?_, rfl, ?_⟩⟩
    · simp [line3Pool, hg, hb]
    · intro hs
      exact List.any_eq_true.mpr ⟨"余裕がない", by decide, jsIncludes_append_right (by decide)⟩
    · simp [line3Pool, hg, hb]
    · intro hs
      exact List.any_eq_true.mpr ⟨"しんどい", by decide, jsIncludes_append_right (by decide)⟩
    · simp [line3Pool, hg, hb]
    · intro hs
      exact List.any_eq_true.mpr ⟨"厳しい", by decide, jsIncludes_append_right (by decide)⟩

theorem line3Pool_ne_nil (input : LetterInput) (severity : ℕ) (scenarioKey : String)
    (qualityTier : ℕ) (intent : Option OtherIntent) :
    line3Pool input severity scenarioKey qualityTier intent ≠ [] := by
  obtain ⟨⟨x, hx, _⟩, _, _⟩ := line3Pool_core input severity scenarioKey qualityTier intent
  exact List.ne_nil_of_mem hx

theorem severityBand_of_ge3 {n : ℕ} (h : 3 ≤ n) : severityBand n = .strained := by
  unfold severityBand
  rw [if_neg (by omega), if_neg (by omega)]

theorem mem_jsTrim {c : Char} {s : String} (h : c ∈ (jsTrim s).data) : c ∈ s.data := by
  have h' : c ∈ ((s.data.dropWhile jsWhitespace).reverse.dropWhile jsWhitespace).reverse := h
  rw [List.mem_reverse] at h'
  have h1 := (List.dropWhile_suffix jsWhitespace).subset h'
  rw [List.mem_reverse] at h1
  exact (List.dropWhile_suffix jsWhitespace).subset h1

/-- Characters of the sanitised keyword come from the raw input or from the
`目標` fallback. -/
theorem mem_sanitizeKeyword {c : Char} {raw : String} (h : c ∈ (sanitizeKeyword raw).data) :
    c ∈ raw.data ∨ c ∈ ("目標" : String).data := by
  simp only [sanitizeKeyword] at h
  split_ifs at h with h0
  · exact Or.inr h
  · left
    have h1 : c ∈ (jsTrim ⟨raw.data.filter (fun c =>
        !(('0' ≤ c && c ≤ '9') || ('０' ≤ c && c ≤ '９') || c = '%' || c = '％' ||
          c = '円' || c = '月'))⟩).data := List.mem_of_mem_take h
    have h2 := mem_jsTrim h1
    exact List.mem_of_mem_filter h2

theorem inferOtherGoalIntent_keyword (s : String) :
    (inferOtherGoalIntent s).keyword =
      (if sanitizeKeyword s = "" then "目標" else sanitizeKeyword s) := by
  simp only [inferOtherGoalIntent]
  split_ifs <;> rfl

/-- Without a newline in the free-text goal, the line-3 pool label carries no
newline either. -/
theorem line3Label_no_nl (input : LetterInput)
    (hok : input.goal = .other → '\n' ∉ (input.goal_other.getD "").data) :
    '\n' ∉ (line3Label input (letterOtherIntent input)).data := by
  by_cases hg : input.goal = .other
  · simp only [line3Label, letterOtherIntent, if_pos hg]
    intro hmem
    rw [String.data_append, String.data_append] at hmem
    rcases List.mem_append.mp hmem with hmem1 | hmem1
    · rcases List.mem_append.mp hmem1 with hmem2 | hmem2
      · exact absurd hmem2 (by decide)
      · rw [inferOtherGoalIntent_keyword] at hmem2
        split_ifs at hmem2
        · exact absurd hmem2 (by decide)
        · rcases mem_sanitizeKeyword hmem2 with hmem3 | hmem3
          · exact hok hg hmem3
          · exact absurd hmem3 (by decide)
    · exact absurd hmem1 (by decide)
  · cases hgoal : input.goal
    · simp only [line3Label, if_neg hg]
      simp [goalKeyword, hgoal]
    · simp only [line3Label, if_neg hg]
      simp [goalKeyword, hgoal]
    · simp only [line3Label, if_neg hg]
      simp [goalKeyword, hgoal]
    · simp only [line3Label, if_neg hg]
      simp [goalKeyword, hgoal]
    · exact absurd hgoal hg

theorem jsIncludes_joinNl {w part : String} : ∀ {parts : List String}, part ∈ parts →
    jsIncludes part w = true → jsIncludes (jsJoinNl parts) w = true := by
  intro parts
  induction parts with
  | nil => intro h _; exact absurd h (List.not_mem_nil part)
  | cons x xs ih =>
    intro hmem hinc
    rcases xs with _ | ⟨y, ys⟩
    · have hx : part = x := List.mem_singleton.mp hmem
      subst hx
      simpa [jsJoinNl] using hinc
    · rcases List.mem_cons.mp hmem with rfl | hmem'
      · show jsIncludes (part ++ "\n" ++ jsJoinNl (y :: ys)) w = true
        exact jsIncludes_append_left (jsIncludes_append_left hinc)
      · show jsIncludes (x ++ "\n" ++ jsJoinNl (y :: ys)) w = true
        exact jsIncludes_append_right (ih hmem' hinc)

theorem denylist_no_dot : ∀ p ∈ DENYLIST_PATTERNS, '。' ∉ p.data := by decide

/-- A denylist match of a concatenation whose left part ends in `。` lies
entirely in one of the parts (no pattern contains `。`). -/
theorem denylistTest_append_elim {s t : String} (hsep : jsEndsWith s "。" = true)
    (h : denylistTest (s ++ t) = true) : denylistTest s = true ∨ denylistTest t = true := by
  rcases List.any_eq_true.mp h with ⟨p, hp, hinc⟩
  rcases jsIncludes_append_elim hsep (denylist_no_dot p hp) hinc with h1 | h1
  · exact Or.inl (List.any_eq_true.mpr ⟨p, hp, h1⟩)
  · exact Or.inr (List.any_eq_true.mpr ⟨p, hp, h1⟩)

theorem goalKeyword_mem_of_ne_other (input : LetterInput) (h : input.goal ≠ .other) :
    goalKeyword input ∈ ["起業", "FIRE", "住宅ローン完済", "海外移住"] := by
  cases hg : input.goal
  · simp [goalKeyword, hg]
  · simp [goalKeyword, hg]
  · simp [goalKeyword, hg]
  · simp [goalKeyword, hg]
  · exact absurd hg h

/-- No fixed goal keyword followed by any line-3 tail matches the denylist
(checked over all 4 × 19 combinations). -/
theorem keyword_tail_denylist_free :
    ∀ K ∈ ["起業", "FIRE", "住宅ローン完済", "海外移住"], ∀ t ∈ LINE3_TAILS,
      denylistTest (K ++ t.text) = false := by
  decide

/-- The parts list of `buildTemplateLetterVariant`, written with the chosen
sentences named: both sides zeta-reduce to the same term. -/
theorem buildTemplateLetterParts_eq (input : LetterInput) (variant : ℕ)
    (projection : Option LetterProjection) (severityOverride : Option ℕ) :
    buildTemplateLetterParts input variant projection severityOverride =
      ["十年前のキミへ。",
       ensureLine2Prefix (letterLine2 input variant projection severityOverride).text,
       (letterLine3 input variant projection severityOverride).text,
       buildLine4 (letterSeverity input projection severityOverride) variant,
       REQUIRED_HOOK_SENTENCE, REQUIRED_METHODS_SENTENCE,
       "十年後のキミより。"] := rfl

/-- The line-2/line-3 selection over arbitrary pools: the pair comes from the
pools, the endings differ, and at severity ≥ 3 the pair shows a strained
word, provided the line-3 pool offers `ne` and `kana` candidates that are
strained in the strained band. -/
theorem enginePair_spec (p2 p3 : List Sentence) (seed sev : ℕ) (hp2 : p2 ≠ [])
    (hne : ∃ x ∈ p3, x.ending = .ne ∧ (severityBand sev = .strained →
      (STRAINED_WORDS.any (fun w => jsIncludes x.text w)) = true))
    (hka : ∃ x ∈ p3, x.ending = .kana ∧ (severityBand sev = .strained →
      (STRAINED_WORDS.any (fun w => jsIncludes x.text w)) = true)) :
    (pickLine2Line3 p2 p3 seed sev).1 ∈ p2 ∧
    (if 3 ≤ sev then ensureStrainedWord (pickLine2Line3 p2 p3 seed sev).1
        (pickLine2Line3 p2 p3 seed sev).2 p3
      else (pickLine2Line3 p2 p3 seed sev).2) ∈ p3 ∧
    (if 3 ≤ sev then ensureStrainedWord (pickLine2Line3 p2 p3 seed sev).1
        (pickLine2Line3 p2 p3 seed sev).2 p3
      else (pickLine2Line3 p2 p3 seed sev).2).ending ≠
      (pickLine2Line3 p2 p3 seed sev).1.ending ∧
    (3 ≤ sev →
      (STRAINED_WORDS.any (fun w =>
        jsIncludes ((pickLine2Line3 p2 p3 seed sev).1.text ++
          (if 3 ≤ sev then ensureStrainedWord (pickLine2Line3 p2 p3 seed sev).1
              (pickLine2Line3 p2 p3 seed sev).2 p3
            else (pickLine2Line3 p2 p3 seed sev).2).text) w)) = true) := by
  have hpick := pickLine2Line3_spec p2 p3 seed sev hp2
    (by obtain ⟨x, hx, he, _⟩ := hne; exact ⟨x, hx, he⟩)
    (by obtain ⟨x, hx, he, _⟩ := hka; exact ⟨x, hx, he⟩)
  split_ifs with hsev
  · have hband := severityBand_of_ge3 hsev
    obtain ⟨xne, hxne, hene, hsne⟩ := hne
    obtain ⟨xka, hxka, heka, hska⟩ := hka
    have hwit : ∃ x ∈ p3, (STRAINED_WORDS.any (fun w => jsIncludes x.text w)) = true ∧
        x.ending ≠ (pickLine2Line3 p2 p3 seed sev).1.ending := by
      by_cases h2e : (pickLine2Line3 p2 p3 seed sev).1.ending = .ne
      · refine ⟨xka, hxka, hska hband, ?_⟩
        rw [heka, h2e]
        decide
      · refine ⟨xne, hxne, hsne hband, ?_⟩
        rw [hene]
        exact fun hh => h2e hh.symm
    obtain ⟨hm, he, hs⟩ := ensureStrainedWord_spec (pickLine2Line3 p2 p3 seed sev).1
      (pickLine2Line3 p2 p3 seed sev).2 p3 hpick.2.1 hpick.2.2
    exact ⟨hpick.1, hm, he, fun _ => hs hwit⟩
  · exact ⟨hpick.1, hpick.2.1, hpick.2.2, fun hh => absurd hh hsev⟩

/-- The invariants of the pair the engine finally uses. -/
theorem letter_pair_spec (input : LetterInput) (variant : ℕ)
    (projection : Option LetterProjection) (severityOverride : Option ℕ) :
    letterLine2 input variant projection severityOverride ∈
      letterP2 input projection severityOverride ∧
    letterLine3 input variant projection severityOverride ∈
      letterP3 input projection severityOverride ∧
    (letterLine3 input variant projection severityOverride).ending ≠
      (letterLine2 input variant projection severityOverride).ending ∧
    (3 ≤ letterSeverity input projection severityOverride →
      (STRAINED_WORDS.any (fun w =>
        jsIncludes ((letterLine2 input variant projection severityOverride).text ++
          (letterLine3 input variant projection severityOverride).text) w)) = true) := by
  obtain ⟨cne, ckana, _⟩ := line3Pool_core input
    (letterSeverity input projection severityOverride) (buildScenarioKey input projection)
    (getLifeQualityTier projection) (letterOtherIntent input)
  exact enginePair_spec (letterP2 input projection severityOverride)
    (letterP3 input projection severityOverride)
    (letterSeed input variant projection severityOverride)
    (letterSeverity input projection severityOverride)
    (line2Pool_ne_nil _ _ _ _) cne ckana

theorem letterLine2_mem_all (input : LetterInput) (variant : ℕ)
    (projection : Option LetterProjection) (severityOverride : Option ℕ) :
    letterLine2 input variant projection severityOverride ∈ LINE2_ALL :=
  line2Pool_subset (pickSituation input) (letterSeverity input projection severityOverride)
    (buildScenarioKey input projection) (getLifeQualityTier projection)
    (letter_pair_spec input variant projection severityOverride).1

theorem letterLine3_shape (input : LetterInput) (variant : ℕ)
    (projection : Option LetterProjection) (severityOverride : Option ℕ) :
    ∃ t ∈ LINE3_TAILS, letterLine3 input variant projection severityOverride =
      makeSentence (line3Label input (letterOtherIntent input) ++ t.text) t.ending :=
  line3Pool_shape input (letterSeverity input projection severityOverride)
    (buildScenarioKey input projection) (getLifeQualityTier projection)
    (letterOtherIntent input) (letterLine3 input variant projection severityOverride)
    (letter_pair_spec input variant projection severityOverride).2.1

/-- No part of the letter contains a newline, as long as the free-text goal
does not itself contain one. -/
theorem letter_parts_no_nl (input : LetterInput) (variant : ℕ)
    (projection : Option LetterProjection) (severityOverride : Option ℕ)
    (hnl : input.goal = .other → '\n' ∉ (input.goal_other.getD "").data) :
    ∀ p ∈ buildTemplateLetterParts input variant projection severityOverride,
      '\n' ∉ p.data := by
  rw [buildTemplateLetterParts_eq]
  intro p hp
  simp only [List.mem_cons, List.not_mem_nil, or_false] at hp
  rcases hp with rfl | rfl | rfl | rfl | rfl | rfl | rfl
  · decide
  · obtain ⟨_, _, _, h4, _⟩ :=
      line2_all_facts _ (letterLine2_mem_all input variant projection severityOverride)
    exact h4
  · obtain ⟨t, ht, heq⟩ := letterLine3_shape input variant projection severityOverride
    rw [heq]
    show '\n' ∉ (line3Label input (letterOtherIntent input) ++ t.text).data
    intro hmem
    rw [String.data_append] at hmem
    rcases List.mem_append.mp hmem with hmem1 | hmem1
    · exact line3Label_no_nl input hnl hmem1
    · exact (line3_tails_facts t ht).2.2 hmem1
  · exact (line4_all_facts _
      (buildLine4_mem (letterSeverity input projection severityOverride) variant)).2.2.2.2
  · decide
  · decide
  · decide

theorem strained_no_dot : ∀ w ∈ STRAINED_WORDS, '。' ∉ w.data := by decide

/-- Splitting the letter on newline recovers the seven assembled parts, as
long as the free-text goal contains no newline. -/
theorem letter_split (input : LetterInput) (variant : ℕ)
    (projection : Option LetterProjection) (severityOverride : Option ℕ)
    (hnl : input.goal = .other → '\n' ∉ (input.goal_other.getD "").data) :
    jsSplitNl (buildTemplateLetterVariant input variant projection severityOverride) =
      buildTemplateLetterParts input variant projection severityOverride :=
  jsSplitNl_jsJoinNl _ (by rw [buildTemplateLetterParts_eq]; simp)
    (letter_parts_no_nl input variant projection severityOverride hnl)

set_option maxRecDepth 100000 in
/-- C3 counterexample: a valid input whose free-text goal contains a newline
makes the letter split into more than 7 lines, refuting the claim as
stated. -/
theorem seven_line_structure_cex :
    ValidInput inputNewlineGoal ∧
    (jsSplitNl (buildTemplateLetter inputNewlineGoal none none)).length ≠ 7 := by
  decide

/-- C3 (amended: the free-text goal must not contain a newline — the engine
interpolates it into line 3 verbatim): for every valid input whose free-text
goal contains no newline, the letter splits on newline into exactly 7 lines,
line 5 is the required hook sentence, line 6 the required methods sentence,
and line 4 contains exactly one `。` and ends with it. -/
theorem seven_line_structure (input : LetterInput) (projection : Option LetterProjection)
    (severityOverride : Option ℕ) (hv : ValidInput input)
    (hnl : input.goal = .other → '\n' ∉ (input.goal_other.getD "").data) :
    (jsSplitNl (buildTemplateLetter input projection severityOverride)).length = 7 ∧
    (jsSplitNl (buildTemplateLetter input projection severityOverride)).getD 4 "" =
      REQUIRED_HOOK_SENTENCE ∧
    (jsSplitNl (buildTemplateLetter input projection severityOverride)).getD 5 "" =
      REQUIRED_METHODS_SENTENCE ∧
    ((jsSplitNl (buildTemplateLetter input projection severityOverride)).getD 3 "").data.count
      '。' = 1 ∧
    jsEndsWith ((jsSplitNl (buildTemplateLetter input projection severityOverride)).getD 3 "")
      "。" = true := by
  have hL : buildTemplateLetter input projection severityOverride =
      buildTemplateLetterVariant input (pickTemplateVariant input) projection severityOverride :=
    rfl
  rw [hL, letter_split input (pickTemplateVariant input) projection severityOverride hnl,
    buildTemplateLetterParts_eq]
  obtain ⟨_, h2, h3, _, _⟩ := line4_all_facts _
    (buildLine4_mem (letterSeverity input projection severityOverride) (pickTemplateVariant input))
  refine ⟨rfl, rfl, rfl, ?_, ?_⟩
  · show (buildLine4 (letterSeverity input projection severityOverride)
      (pickTemplateVariant input)).data.count '。' = 1
    exact h2
  · show jsEndsWith (buildLine4 (letterSeverity input projection severityOverride)
      (pickTemplateVariant input)) "。" = true
    exact h3

/-- Witness for the amended C3 theorem at a concrete valid input. -/
theorem seven_line_structure_witness :
    (jsSplitNl (buildTemplateLetter inputSmoke none none)).length = 7 :=
  (seven_line_structure inputSmoke none none (by decide) (by decide)).1

set_option maxRecDepth 100000 in
/-- C5 counterexample: a valid input whose free-text goal is itself a
denylist pattern puts that pattern into line 3, so the concatenation of
lines 2 and 3 of the letter matches the denylist, refuting the claim as
stated. -/
theorem ending_categories_cex :
    ValidInput inputDenylistGoal ∧
    denylistTest ((jsSplitNl (buildTemplateLetter inputDenylistGoal none none)).getD 1 "" ++
      (jsSplitNl (buildTemplateLetter inputDenylistGoal none none)).getD 2 "") = true := by
  decide

/-- C5 (amended: the denylist guarantee holds for the fixed goals; the
open-ended goal can place arbitrary text, including denylist patterns, into
line 3): lines 2 and 3 of the letter always end with distinct
sentence-ending categories, and when the goal is not the open-ended one
their concatenation never matches the denylist. -/
theorem ending_categories (input : LetterInput) (projection : Option LetterProjection)
    (severityOverride : Option ℕ) (hv : ValidInput input)
    (hnl : input.goal = .other → '\n' ∉ (input.goal_other.getD "").data) :
    (∃ e2 e3 : EndingGroup, e2 ≠ e3 ∧
      jsEndsWith ((jsSplitNl (buildTemplateLetter input projection severityOverride)).getD 1 "")
        (catSuffix e2) = true ∧
      jsEndsWith ((jsSplitNl (buildTemplateLetter input projection severityOverride)).getD 2 "")
        (catSuffix e3) = true) ∧
    (input.goal ≠ .other →
      denylistTest
        ((jsSplitNl (buildTemplateLetter input projection severityOverride)).getD 1 "" ++
          (jsSplitNl (buildTemplateLetter input projection severityOverride)).getD 2 "") =
        false) := by
  have hL : buildTemplateLetter input projection severityOverride =
      buildTemplateLetterVariant input (pickTemplateVariant input) projection severityOverride :=
    rfl
  rw [hL, letter_split input (pickTemplateVariant input) projection severityOverride hnl,
    buildTemplateLetterParts_eq]
  obtain ⟨_, _, _, _, f5, f6, f7⟩ := line2_all_facts _
    (letterLine2_mem_all input (pickTemplateVariant input) projection severityOverride)
  obtain ⟨t, ht, heq⟩ := letterLine3_shape input (pickTemplateVariant input)
    projection severityOverride
  have htext : (letterLine3 input (pickTemplateVariant input) projection severityOverride).text =
      line3Label input (letterOtherIntent input) ++ t.text := congrArg Sentence.text heq
  have hend : (letterLine3 input (pickTemplateVariant input) projection severityOverride).ending =
      t.ending := by
    rw [heq]
    rfl
  constructor
  · refine ⟨(letterLine2 input (pickTemplateVariant input) projection severityOverride).ending,
      (letterLine3 input (pickTemplateVariant input) projection severityOverride).ending,
      Ne.symm (letter_pair_spec input (pickTemplateVariant input) projection
        severityOverride).2.2.1, f6, ?_⟩
    show jsEndsWith
      (letterLine3 input (pickTemplateVariant input) projection severityOverride).text
      (catSuffix (letterLine3 input (pickTemplateVariant input) projection
        severityOverride).ending) = true
    rw [htext, hend]
    exact jsEndsWith_append (line3_tails_facts t ht).1
  · intro hgoal
    refine Bool.eq_false_iff.mpr fun hT => ?_
    have hT' : denylistTest
        (ensureLine2Prefix
          (letterLine2 input (pickTemplateVariant input) projection severityOverride).text ++
         (letterLine3 input (pickTemplateVariant input) projection severityOverride).text) =
        true := hT
    rcases denylistTest_append_elim f7 hT' with hbad | hbad
    · rw [f5] at hbad
      exact Bool.false_ne_true hbad
    · rw [htext] at hbad
      have hlab : line3Label input (letterOtherIntent input) = goalKeyword input := by
        simp [line3Label, hgoal]
      rw [hlab] at hbad
      rw [keyword_tail_denylist_free (goalKeyword input)
        (goalKeyword_mem_of_ne_other input hgoal) t ht] at hbad
      exact Bool.false_ne_true hbad

/-- Witness for the amended C5 theorem at a concrete valid input with a
fixed goal. -/
theorem ending_categories_witness :
    denylistTest ((jsSplitNl (buildTemplateLetter inputSmoke none none)).getD 1 "" ++
      (jsSplitNl (buildTemplateLetter inputSmoke none none)).getD 2 "") = false :=
  (ending_categories inputSmoke none none (by decide) (by decide)).2 (by decide)

/-- C6: for every valid input and projection whose derived severity is at
least 3, the letter contains at least one word of the fixed strained
vocabulary. -/
theorem strained_vocabulary (input : LetterInput) (projection : Option LetterProjection)
    (severityOverride : Option ℕ) (hv : ValidInput input)
    (hsev : 3 ≤ letterSeverity input projection severityOverride) :
    ∃ w ∈ STRAINED_WORDS,
      jsIncludes (buildTemplateLetter input projection severityOverride) w = true := by
  obtain ⟨_, _, _, hstr⟩ := letter_pair_spec input (pickTemplateVariant input)
    projection severityOverride
  rcases List.any_eq_true.mp (hstr hsev) with ⟨w, hw, hwinc⟩
  refine ⟨w, hw, ?_⟩
  obtain ⟨_, f2, f3, _, _, _, _⟩ := line2_all_facts _
    (letterLine2_mem_all input (pickTemplateVariant input) projection severityOverride)
  have hjoin : buildTemplateLetter input projection severityOverride =
      jsJoinNl (buildTemplateLetterParts input (pickTemplateVariant input)
        projection severityOverride) := rfl
  rw [hjoin]
  rcases jsIncludes_append_elim f2 (strained_no_dot w hw) hwinc with hin | hin
  · refine jsIncludes_joinNl ?_ (show jsIncludes (ensureLine2Prefix
      (letterLine2 input (pickTemplateVariant input) projection severityOverride).text) w =
        true by rw [f3]; exact jsIncludes_append_right hin)
    rw [buildTemplateLetterParts_eq]
    simp
  · refine jsIncludes_joinNl ?_ hin
    rw [buildTemplateLetterParts_eq]
    simp

/-- Witness for the C6 theorem at a concrete valid input with an overridden
severity of 4. -/
theorem strained_vocabulary_witness :
    ∃ w ∈ STRAINED_WORDS, jsIncludes (buildTemplateLetter inputSmoke none (some 4)) w = true :=
  strained_vocabulary inputSmoke none (some 4) (by decide) (by decide)

/-- C7: the engine is total on well-formed input — the situation
classification yields one of the three classes, the candidate pools it
queries are never empty, the chosen sentences come from those pools (so the
empty-pool sentinel of `pickSentence` is never used), and the letter is the
join of exactly 7 parts. -/
theorem engine_totality (input : LetterInput) (variant : ℕ)
    (projection : Option LetterProjection) (severityOverride : Option ℕ)
    (hv : ValidInput input) :
    (pickSituation input = .kids ∨ pickSituation input = .pair ∨
      pickSituation input = .single) ∧
    letterP2 input projection severityOverride ≠ [] ∧
    letterP3 input projection severityOverride ≠ [] ∧
    letterLine2 input variant projection severityOverride ∈
      letterP2 input projection severityOverride ∧
    letterLine3 input variant projection severityOverride ∈
      letterP3 input projection severityOverride ∧
    buildTemplateLetterVariant input variant projection severityOverride =
      jsJoinNl (buildTemplateLetterParts input variant projection severityOverride) ∧
    (buildTemplateLetterParts input variant projection severityOverride).length = 7 := by
  obtain ⟨h1, h2, _, _⟩ := letter_pair_spec input variant projection severityOverride
  refine ⟨?_, line2Pool_ne_nil _ _ _ _, line3Pool_ne_nil _ _ _ _ _, h1, h2, rfl, ?_⟩
  · unfold pickSituation
    split_ifs <;> simp
  · rw [buildTemplateLetterParts_eq]
    rfl

/-- Witness for the C7 theorem at a concrete valid input. -/
theorem engine_totality_witness :
    letterP2 inputSmoke none none ≠ [] ∧ letterP3 inputSmoke none none ≠ [] :=
  ⟨(engine_totality inputSmoke 0 none none (by decide)).2.1,
   (engine_totality inputSmoke 0 none none (by decide)).2.2.1⟩

/-- C8 counterexample: on a string whose seventh line is whitespace-only,
`hasSevenLines` returns true although only 6 lines are non-empty after
trimming, refuting the claim as stated. -/
theorem hasSevenLines_trim_cex :
    hasSevenLines "a\nb\nc\nd\ne\nf\n " = true ∧
    hasSevenLinesSpec "a\nb\nc\nd\ne\nf\n " = false := by
  decide

/-- C8 (amended: `filter(Boolean)` drops only empty strings, so a
whitespace-only line still counts): `hasSevenLines` returns true exactly
when the string, split on newlines, has exactly 7 non-empty lines. -/
theorem hasSevenLines_char (text : String) :
    hasSevenLines text = true ↔
      (jsSplitNl text).countP (fun l => l != "") = 7 := by
  simp [hasSevenLines, List.countP_eq_length_filter]

/-- C9: `pickTemplateVariant` and `buildTemplateLetter` are deterministic:
identical arguments give identical outputs (the embedding is a pure
function, with no hidden state). -/
theorem letter_deterministic (i1 i2 : LetterInput) (p1 p2 : Option LetterProjection)
    (s1 s2 : Option ℕ) (hi : i1 = i2) (hp : p1 = p2) (hs : s1 = s2) :
    pickTemplateVariant i1 = pickTemplateVariant i2 ∧
    buildTemplateLetter i1 p1 s1 = buildTemplateLetter i2 p2 s2 := by
  subst hi
  subst hp
  subst hs
  exact ⟨rfl, rfl⟩

/-- Witness for the C9 theorem at a concrete input. -/
theorem letter_deterministic_witness :
    pickTemplateVariant inputSmoke = pickTemplateVariant inputSmoke ∧
    buildTemplateLetter inputSmoke none none = buildTemplateLetter inputSmoke none none :=
  letter_deterministic inputSmoke inputSmoke none none none none rfl rfl rfl
